import Mathlib

/-
Shallow embedding of the ST-Link debug probe driver from
src/probe-rs/src/probe/stlink/mod.rs.

The driver is modelled as explicit state passing over two pieces of state:
the probe driver struct (STLink) and a device/transport model (Dev).  The
transport is the external collaborator of the spec (section 6): a device
oracle maps the index of each write to either a response byte list or a
transport-level failure (modelled as the USB error), and a reset oracle
tells whether each transport reset succeeds.  Every issued command and
every transport reset is recorded in a trace, so that command-sequencing
claims can be stated.

Rust u8/u16/u32 values are modelled as Nat with explicit masking where the
source casts.  The f32 arithmetic of get_target_voltage is modelled over
the rationals; the zero test on the first sample word is exact because the
u32-to-f32 cast maps a word to 0.0 exactly when the word is 0.
-/

inductive WireProtocol
  | Swd
  | Jtag
deriving DecidableEq

inductive PortType
  | DebugPort
  | AccessPort (n : Nat)
deriving DecidableEq

inductive Mode
  | Dfu
  | MassStorage
  | Jtag
  | Swim
deriving DecidableEq

/-
Modelled from the spec: the constants module (src/probe-rs/src/probe/stlink/constants.rs)
is not under src/.  Section 3 of the spec describes Status as an enumeration of
protocol result codes with a distinguished unknown value used when the response
byte matches no known code, and sections 4.2/8 fix the behaviour of the lookup:
one success code, other known codes are carried in the failure, unrecognized
bytes map to no code.  The concrete variants and byte values below follow the
ST-Link protocol; only the success code and the distinction known/unknown matter
for the claims.
-/
inductive Status
  | JtagOk
  | JtagUnknownError
  | JtagSpiError
  | JtagDmaError
  | JtagUnknownJtagChain
  | JtagNoDeviceConnected
  | JtagInternalError
  | JtagCmdWait
  | JtagCmdError
  | SwdApWait
  | SwdApFault
  | SwdApError
  | SwdDpWait
  | SwdDpFault
  | SwdDpError
  | JtagFreqNotSupported
  | JtagUnknownCmd
  | Unknown
deriving DecidableEq

/-
Modelled from the spec: lookup of response byte 0 as a Status code
(sections 4.2 and 8).  The Unknown variant is never produced by the lookup;
it is the distinguished value used by check_status for unmatched bytes.
-/
def Status.fromU8 : Nat → Option Status
  | 0x80 => some Status.JtagOk
  | 0x01 => some Status.JtagUnknownError
  | 0x02 => some Status.JtagSpiError
  | 0x03 => some Status.JtagDmaError
  | 0x04 => some Status.JtagUnknownJtagChain
  | 0x05 => some Status.JtagNoDeviceConnected
  | 0x06 => some Status.JtagInternalError
  | 0x07 => some Status.JtagCmdWait
  | 0x08 => some Status.JtagCmdError
  | 0x10 => some Status.SwdApWait
  | 0x11 => some Status.SwdApFault
  | 0x12 => some Status.SwdApError
  | 0x14 => some Status.SwdDpWait
  | 0x15 => some Status.SwdDpFault
  | 0x16 => some Status.SwdDpError
  | 0x41 => some Status.JtagFreqNotSupported
  | 0x42 => some Status.JtagUnknownCmd
  | _ => none

/- Error enum StlinkError of src/probe-rs/src/probe/stlink/mod.rs (lines 638-654). -/
inductive StlinkError
  | VoltageDivisionByZero
  | UnknownMode
  | JTagDoesNotSupportMultipleAP
  | BlanksNotAllowedOnDPRegister
  | NotEnoughBytesRead
  | EndpointNotFound
  | CommandFailed (s : Status)
deriving DecidableEq

/-
Modelled from the spec: DebugProbeError is declared in src/probe-rs/src/probe/mod.rs,
which is not under src/.  The variants below are exactly the ones the embedded code
constructs or matches on: the transport-level USB error (section 7 taxonomy (a)),
the capability errors of taxonomy (c), and the probe-specific wrapper that
From StlinkError for DebugProbeError produces (mod.rs lines 656-660).
-/
inductive DebugProbeError
  | USB
  | JTAGNotSupportedOnProbe
  | ProbeFirmwareOutdated
  | UnsupportedSpeed (speed_khz : Nat)
  | ProbeSpecific (e : StlinkError)
deriving DecidableEq

/-
Outcome of a driver operation.  A Rust panic (the unimplemented macro or a failed
assert) aborts the process instead of returning an error; it is modelled as the
distinct outcome Failure.panic so that returning a typed error and aborting are
distinguishable.
-/
inductive Failure
  | err (e : DebugProbeError)
  | panic (msg : String)
deriving DecidableEq

/- One observable interaction with the transport: a command write or a reset. -/
inductive DevEvent
  | write (cmd : List Nat)
  | reset
deriving DecidableEq

/-
The transport collaborator (spec section 6): oracle gives the response to the
k-th command write (none is a transport-level failure, surfaced as the USB
error), resetOracle tells whether the k-th transport reset succeeds.  count and
resetCount index into the oracles; trace records every issued command and reset.
-/
structure Dev where
  oracle : Nat → Option (List Nat)
  resetOracle : Nat → Bool
  count : Nat
  resetCount : Nat
  trace : List DevEvent

/- Fixed-size response buffer: the source zero-initializes the buffer and the
transport fills it, so the response is truncated or zero-padded to the size. -/
def padTo (len : Nat) (resp : List Nat) : List Nat :=
  resp.take len ++ List.replicate (len - resp.length) 0

/- device.write of the transport contract: issue the command, consume the next
oracle entry, return the fixed-size response buffer or the transport error. -/
def devWrite (cmd : List Nat) (len : Nat) (d : Dev) :
    Except DebugProbeError (List Nat) × Dev :=
  let d' : Dev := { d with count := d.count + 1, trace := d.trace ++ [DevEvent.write cmd] }
  match d.oracle d.count with
  | none => (Except.error DebugProbeError.USB, d')
  | some resp => (Except.ok (padTo len resp), d')

/- device.reset of the transport contract. -/
def devReset (d : Dev) : Except DebugProbeError Unit × Dev :=
  let d' : Dev := { d with resetCount := d.resetCount + 1, trace := d.trace ++ [DevEvent.reset] }
  if d.resetOracle d.resetCount then (Except.ok (), d') else (Except.error DebugProbeError.USB, d')

/- Little-endian 32-bit word from four bytes (scroll pread_with LE). -/
def leWord4 (a b c e : Nat) : Nat :=
  a + 256 * b + 65536 * c + 16777216 * e

/- chunks(4) + little-endian parse of each chunk (lines 555-558). -/
def leWords : List Nat → List Nat
  | a :: b :: c :: e :: rest => leWord4 a b c e :: leWords rest
  | _ => []

/- u32::to_le_bytes. -/
def le4 (n : Nat) : List Nat :=
  [n % 256, n / 256 % 256, n / 65536 % 256, n / 16777216 % 256]

/- Command selector bytes from the constants module.
Modelled from the spec: constants.rs is not under src/; the spec (section 4.1)
fixes the two-byte command header scheme (family selector then operation
selector).  The concrete byte values follow the ST-Link protocol; the claims
depend only on distinct commands being distinct byte sequences. -/
def commands.GET_VERSION : Nat := 0xF1
def commands.JTAG_COMMAND : Nat := 0xF2
def commands.DFU_COMMAND : Nat := 0xF3
def commands.SWIM_COMMAND : Nat := 0xF4
def commands.GET_CURRENT_MODE : Nat := 0xF5
def commands.GET_TARGET_VOLTAGE : Nat := 0xF7
def commands.GET_VERSION_EXT : Nat := 0xFB
def commands.DFU_EXIT : Nat := 0x07
def commands.SWIM_EXIT : Nat := 0x01
def commands.JTAG_ENTER2 : Nat := 0x30
def commands.JTAG_ENTER_SWD : Nat := 0xA3
def commands.JTAG_ENTER_JTAG_NO_CORE_RESET : Nat := 0xA4
def commands.JTAG_READ_DAP_REG : Nat := 0xF5
def commands.JTAG_WRITE_DAP_REG : Nat := 0xF8
def commands.SWD_SET_FREQ : Nat := 0x43
def commands.JTAG_SET_FREQ : Nat := 0x44
def commands.SET_COM_FREQ : Nat := 0x61
def commands.GET_COM_FREQ : Nat := 0x62
def commands.JTAG_INIT_AP : Nat := 0x4B
def commands.JTAG_CLOSE_AP_DBG : Nat := 0x4C
def commands.JTAG_DRIVE_NRST : Nat := 0x3C
def commands.JTAG_DRIVE_NRST_PULSE : Nat := 0x02

/- The driver struct STLink (mod.rs lines 17-28); the USB device handle is
kept separately as Dev. -/
structure STLink where
  hw_version : Nat
  jtag_version : Nat
  protocol : WireProtocol
  swd_speed_khz : Nat
  jtag_speed_khz : Nat
  current_ap : Option Nat
deriving DecidableEq

/- Field values of the struct literal in new_from_probe_info (lines 32-41). -/
def defaultSTLink : STLink :=
  { hw_version := 0
    jtag_version := 0
    protocol := WireProtocol.Swd
    swd_speed_khz := 1800
    jtag_speed_khz := 1120
    current_ap := none }

/-
Modelled from the spec: the From PortType for u16 conversion lives in
src/probe-rs/src/probe/mod.rs which is not under src/.  Per spec section 4.5
the transfer command carries the port number in two bytes; DebugPort uses the
distinguished all-ones value, AccessPort(n) uses n.
-/
def portToU16 : PortType → Nat
  | PortType.DebugPort => 0xFFFF
  | PortType.AccessPort n => n % 65536

/- Command byte sequences built inline by the driver (lines 227-234, 269-280,
548, 526-527, 481-486, 499-504, 575-580, 590-596). -/
def readDapCmd (port : PortType) (addr : Nat) : List Nat :=
  [commands.JTAG_COMMAND, commands.JTAG_READ_DAP_REG,
   portToU16 port &&& 0xFF, (portToU16 port >>> 8) &&& 0xFF,
   addr &&& 0xFF, (addr >>> 8) &&& 0xFF]

def writeDapCmd (port : PortType) (addr : Nat) (value : Nat) : List Nat :=
  [commands.JTAG_COMMAND, commands.JTAG_WRITE_DAP_REG,
   portToU16 port &&& 0xFF, (portToU16 port >>> 8) &&& 0xFF,
   addr &&& 0xFF, (addr >>> 8) &&& 0xFF,
   value &&& 0xFF, (value >>> 8) &&& 0xFF, (value >>> 16) &&& 0xFF, (value >>> 24) &&& 0xFF]

def openApCmd (apsel : Nat) : List Nat :=
  [commands.JTAG_COMMAND, commands.JTAG_INIT_AP, apsel]

def closeApCmd (apsel : Nat) : List Nat :=
  [commands.JTAG_COMMAND, commands.JTAG_CLOSE_AP_DBG, apsel]

def getComFreqCmd (cmd_proto : Nat) : List Nat :=
  [commands.JTAG_COMMAND, commands.GET_COM_FREQ, cmd_proto]

def setComFreqCmd (cmd_proto : Nat) (frequency_khz : Nat) : List Nat :=
  [commands.JTAG_COMMAND, commands.SET_COM_FREQ, cmd_proto, 0] ++ le4 frequency_khz

/-
Modelled from the spec: SwdFrequencyToDelayCount and JTagFrequencyToDivider live
in constants.rs, which is not under src/.  Spec section 4.4: for hardware < 3,
find_setting looks up the closest supported setting for the requested speed from
a mode-specific static table, or no setting exists.  A setting is modelled by
its speed in kHz (so to_khz is the identity) together with the wire byte sent
by the frequency-set command (the enum discriminant: a delay count for SWD, a
divider for JTAG); find_setting returns the largest tabulated speed that does
not exceed the request.
-/
def SwdFrequencyToDelayCount.table : List Nat :=
  [4600, 1800, 1200, 950, 480, 240, 125, 100, 50, 25, 15, 5]

def SwdFrequencyToDelayCount.code (khz : Nat) : Nat :=
  match khz with
  | 4600 => 0
  | 1800 => 1
  | 1200 => 2
  | 950 => 3
  | 480 => 7
  | 240 => 15
  | 125 => 31
  | 100 => 40
  | 50 => 79
  | 25 => 158
  | 15 => 265 % 256
  | 5 => 798 % 256
  | _ => 0

def SwdFrequencyToDelayCount.find_setting (speed_khz : Nat) : Option Nat :=
  (SwdFrequencyToDelayCount.table.filter (fun v => v ≤ speed_khz)).max?

def JTagFrequencyToDivider.table : List Nat :=
  [18000, 9000, 4500, 2250, 1120, 560, 280, 140]

def JTagFrequencyToDivider.code (khz : Nat) : Nat :=
  match khz with
  | 18000 => 2
  | 9000 => 4
  | 4500 => 8
  | 2250 => 16
  | 1120 => 32
  | 560 => 64
  | 280 => 128
  | 140 => 256 % 256
  | _ => 0

def JTagFrequencyToDivider.find_setting (speed_khz : Nat) : Option Nat :=
  (JTagFrequencyToDivider.table.filter (fun v => v ≤ speed_khz)).max?

/- Result of a driver operation: outcome plus the updated driver and device. -/
abbrev PRes (α : Type) := Except Failure α × STLink × Dev

namespace STLink

/- Minimum required STLink firmware version (line 305). -/
def MIN_JTAG_VERSION : Nat := 24

/- Firmware version that adds multiple AP support (line 311). -/
def MIN_JTAG_VERSION_MULTI_AP : Nat := 28

/- check_status (lines 623-635): response byte 0 is looked up as a Status;
JtagOk is success, any other known code is carried in CommandFailed, an
unmatched byte becomes CommandFailed Unknown. -/
def check_status (status : List Nat) : Except DebugProbeError Unit :=
  match Status.fromU8 (status.getD 0 0) with
  | some st =>
    if st ≠ Status.JtagOk then
      Except.error (DebugProbeError.ProbeSpecific (StlinkError.CommandFailed st))
    else Except.ok ()
  | none => Except.error (DebugProbeError.ProbeSpecific (StlinkError.CommandFailed Status.Unknown))

/- speed (lines 52-57). -/
def speed (s : STLink) : Nat :=
  match s.protocol with
  | WireProtocol.Swd => s.swd_speed_khz
  | WireProtocol.Jtag => s.jtag_speed_khz

/- select_protocol (lines 178-184): pure state update, always succeeds. -/
def select_protocol (protocol : WireProtocol) (s : STLink) : STLink :=
  match protocol with
  | WireProtocol.Jtag => { s with protocol := WireProtocol.Jtag }
  | WireProtocol.Swd => { s with protocol := WireProtocol.Swd }

/- set_swd_frequency (lines 476-492); the setting is its kHz value, the byte
sent is its delay-count discriminant. -/
def set_swd_frequency (frequency : Nat) (s : STLink) (d : Dev) : PRes Unit :=
  match devWrite [commands.JTAG_COMMAND, commands.SWD_SET_FREQ,
                  SwdFrequencyToDelayCount.code frequency] 2 d with
  | (Except.error e, d1) => (Except.error (Failure.err e), s, d1)
  | (Except.ok buf, d1) =>
    match check_status buf with
    | Except.error e => (Except.error (Failure.err e), s, d1)
    | Except.ok _ => (Except.ok (), s, d1)

/- set_jtag_frequency (lines 495-511). -/
def set_jtag_frequency (frequency : Nat) (s : STLink) (d : Dev) : PRes Unit :=
  match devWrite [commands.JTAG_COMMAND, commands.JTAG_SET_FREQ,
                  JTagFrequencyToDivider.code frequency] 2 d with
  | (Except.error e, d1) => (Except.error (Failure.err e), s, d1)
  | (Except.ok buf, d1) =>
    match check_status buf with
    | Except.error e => (Except.error (Failure.err e), s, d1)
    | Except.ok _ => (Except.ok (), s, d1)

/- set_communication_frequency (lines 514-532); the assert on hw_version == 3
panics when violated. -/
def set_communication_frequency (protocol : WireProtocol) (frequency_khz : Nat)
    (s : STLink) (d : Dev) : PRes Unit :=
  if s.hw_version = 3 then
    let cmd_proto : Nat := match protocol with
      | WireProtocol.Swd => 0
      | WireProtocol.Jtag => 1
    match devWrite (setComFreqCmd cmd_proto frequency_khz) 8 d with
    | (Except.error e, d1) => (Except.error (Failure.err e), s, d1)
    | (Except.ok buf, d1) =>
      match check_status buf with
      | Except.error e => (Except.error (Failure.err e), s, d1)
      | Except.ok _ => (Except.ok (), s, d1)
  else (Except.error (Failure.panic "assertion failed: hw_version == 3"), s, d)

/- get_communication_frequencies (lines 535-567): 52-byte response parsed as
13 little-endian words; word 1 is the current frequency, word 2 (capped at 10)
the count; the available list is the words rotated left by 3 and truncated to
the count. -/
def get_communication_frequencies (protocol : WireProtocol)
    (s : STLink) (d : Dev) : PRes (List Nat × Nat) :=
  if s.hw_version = 3 then
    let cmd_proto : Nat := match protocol with
      | WireProtocol.Swd => 0
      | WireProtocol.Jtag => 1
    match devWrite (getComFreqCmd cmd_proto) 52 d with
    | (Except.error e, d1) => (Except.error (Failure.err e), s, d1)
    | (Except.ok buf, d1) =>
      match check_status buf with
      | Except.error e => (Except.error (Failure.err e), s, d1)
      | Except.ok _ =>
        let values := leWords buf
        let current := values.getD 1 0
        let n := min (values.getD 2 0) 10
        ((Except.ok ((values.drop 3 ++ values.take 3).take n, current)), s, d1)
  else (Except.error (Failure.panic "assertion failed: hw_version == 3"), s, d)

/- set_speed (lines 59-109).  Hardware version >= 4 hits the unimplemented
macro in the source, which aborts the process: modelled as Failure.panic. -/
def set_speed (speed_khz : Nat) (s : STLink) (d : Dev) : PRes Nat :=
  if s.hw_version < 3 then
    match s.protocol with
    | WireProtocol.Swd =>
      match SwdFrequencyToDelayCount.find_setting speed_khz with
      | some actual_speed =>
        match set_swd_frequency actual_speed s d with
        | (Except.error f, s1, d1) => (Except.error f, s1, d1)
        | (Except.ok _, s1, d1) =>
          (Except.ok actual_speed, { s1 with swd_speed_khz := actual_speed }, d1)
      | none => (Except.error (Failure.err (DebugProbeError.UnsupportedSpeed speed_khz)), s, d)
    | WireProtocol.Jtag =>
      match JTagFrequencyToDivider.find_setting speed_khz with
      | some actual_speed =>
        match set_jtag_frequency actual_speed s d with
        | (Except.error f, s1, d1) => (Except.error f, s1, d1)
        | (Except.ok _, s1, d1) =>
          (Except.ok actual_speed, { s1 with jtag_speed_khz := actual_speed }, d1)
      | none => (Except.error (Failure.err (DebugProbeError.UnsupportedSpeed speed_khz)), s, d)
  else if s.hw_version = 3 then
    match get_communication_frequencies s.protocol s d with
    | (Except.error f, s1, d1) => (Except.error f, s1, d1)
    | (Except.ok (available, _), s1, d1) =>
      match (available.filter (fun v => v ≤ speed_khz)).max? with
      | none => (Except.error (Failure.err (DebugProbeError.UnsupportedSpeed speed_khz)), s1, d1)
      | some actual_speed_khz =>
        match set_communication_frequency s1.protocol actual_speed_khz s1 d1 with
        | (Except.error f, s2, d2) => (Except.error f, s2, d2)
        | (Except.ok _, s2, d2) =>
          match s2.protocol with
          | WireProtocol.Swd =>
            (Except.ok actual_speed_khz, { s2 with swd_speed_khz := actual_speed_khz }, d2)
          | WireProtocol.Jtag =>
            (Except.ok actual_speed_khz, { s2 with jtag_speed_khz := actual_speed_khz }, d2)
  else (Except.error (Failure.panic "not implemented"), s, d)

/- get_current_mode (lines 337-356). -/
def get_current_mode (s : STLink) (d : Dev) : PRes Mode :=
  match devWrite [commands.GET_CURRENT_MODE] 2 d with
  | (Except.error e, d1) => (Except.error (Failure.err e), s, d1)
  | (Except.ok buf, d1) =>
    match buf.getD 0 0 with
    | 0 => (Except.ok Mode.Dfu, s, d1)
    | 1 => (Except.ok Mode.MassStorage, s, d1)
    | 2 => (Except.ok Mode.Jtag, s, d1)
    | 3 => (Except.ok Mode.Swim, s, d1)
    | _ => (Except.error (Failure.err (DebugProbeError.ProbeSpecific StlinkError.UnknownMode)), s, d1)

/- enter_idle (lines 360-378). -/
def enter_idle (s : STLink) (d : Dev) : PRes Unit :=
  match get_current_mode s d with
  | (Except.error f, s1, d1) => (Except.error f, s1, d1)
  | (Except.ok mode, s1, d1) =>
    match mode with
    | Mode.Dfu =>
      match devWrite [commands.DFU_COMMAND, commands.DFU_EXIT] 0 d1 with
      | (Except.error e, d2) => (Except.error (Failure.err e), s1, d2)
      | (Except.ok _, d2) => (Except.ok (), s1, d2)
    | Mode.Swim =>
      match devWrite [commands.SWIM_COMMAND, commands.SWIM_EXIT] 0 d1 with
      | (Except.error e, d2) => (Except.error (Failure.err e), s1, d2)
      | (Except.ok _, d2) => (Except.ok (), s1, d2)
    | _ => (Except.ok (), s1, d1)

/- get_version (lines 383-441): 16-bit big-endian word from the first two
response bytes, 4-bit hardware field at bit 12, 6-bit firmware field at bit 6
(each cast to u8, hence the mod 256, then masked); hardware >= 3 overwrites the
firmware version with byte 2 of the 12-byte extended response; then the
firmware gates. -/
def get_version (s : STLink) (d : Dev) : PRes (Nat × Nat) :=
  match devWrite [commands.GET_VERSION] 6 d with
  | (Except.error e, d1) => (Except.error (Failure.err e), s, d1)
  | (Except.ok buf, d1) =>
    let version := buf.getD 0 0 * 256 + buf.getD 1 0
    let s1 : STLink :=
      { s with hw_version := (version >>> 12) % 256 &&& 0x0F
               jtag_version := (version >>> 6) % 256 &&& 0x3F }
    let step : PRes Unit :=
      if 3 ≤ s1.hw_version then
        match devWrite [commands.GET_VERSION_EXT] 12 d1 with
        | (Except.error e, d2) => (Except.error (Failure.err e), s1, d2)
        | (Except.ok buf2, d2) => (Except.ok (), { s1 with jtag_version := buf2.getD 2 0 }, d2)
      else (Except.ok (), s1, d1)
    match step with
    | (Except.error f, s2, d2) => (Except.error f, s2, d2)
    | (Except.ok _, s2, d2) =>
      if s2.jtag_version = 0 then
        (Except.error (Failure.err DebugProbeError.JTAGNotSupportedOnProbe), s2, d2)
      else if s2.hw_version < 3 ∧ s2.jtag_version < MIN_JTAG_VERSION then
        (Except.error (Failure.err DebugProbeError.ProbeFirmwareOutdated), s2, d2)
      else (Except.ok (s2.hw_version, s2.jtag_version), s2, d2)

/- get_target_voltage (lines 315-334): two little-endian 32-bit sample words;
division by zero is guarded; the f32 value 2.0 * a1 * 1.2 / a0 is modelled in
the rationals. -/
def get_target_voltage (s : STLink) (d : Dev) : Except Failure ℚ × STLink × Dev :=
  match devWrite [commands.GET_TARGET_VOLTAGE] 8 d with
  | (Except.error e, d1) => (Except.error (Failure.err e), s, d1)
  | (Except.ok buf, d1) =>
    let a0 := leWord4 (buf.getD 0 0) (buf.getD 1 0) (buf.getD 2 0) (buf.getD 3 0)
    let a1 := leWord4 (buf.getD 4 0) (buf.getD 5 0) (buf.getD 6 0) (buf.getD 7 0)
    if a0 ≠ 0 then
      (Except.ok (2 * (a1 : ℚ) * (12 / 10) / (a0 : ℚ)), s, d1)
    else
      (Except.error (Failure.err (DebugProbeError.ProbeSpecific StlinkError.VoltageDivisionByZero)), s, d1)

/- open_ap (lines 569-583). -/
def open_ap (apsel : Nat) (s : STLink) (d : Dev) : PRes Unit :=
  if s.hw_version < 3 ∧ s.jtag_version < MIN_JTAG_VERSION_MULTI_AP then
    (Except.error (Failure.err (DebugProbeError.ProbeSpecific StlinkError.JTagDoesNotSupportMultipleAP)), s, d)
  else
    match devWrite (openApCmd apsel) 2 d with
    | (Except.error e, d1) => (Except.error (Failure.err e), s, d1)
    | (Except.ok buf, d1) =>
      match check_status buf with
      | Except.error e => (Except.error (Failure.err e), s, d1)
      | Except.ok _ => (Except.ok (), s, d1)

/- close_ap (lines 585-599). -/
def close_ap (apsel : Nat) (s : STLink) (d : Dev) : PRes Unit :=
  if s.hw_version < 3 ∧ s.jtag_version < MIN_JTAG_VERSION_MULTI_AP then
    (Except.error (Failure.err (DebugProbeError.ProbeSpecific StlinkError.JTagDoesNotSupportMultipleAP)), s, d)
  else
    match devWrite (closeApCmd apsel) 2 d with
    | (Except.error e, d1) => (Except.error (Failure.err e), s, d1)
    | (Except.ok buf, d1) =>
      match check_status buf with
      | Except.error e => (Except.error (Failure.err e), s, d1)
      | Except.ok _ => (Except.ok (), s, d1)

/- The AP session-switch block that appears verbatim in both read_register
(lines 211-223) and write_register (lines 253-265): on AccessPort(n), close the
cached AP if it differs, open n if needed, and only then cache Some(n); the
u16 AP numbers are cast to u8 for the open and close commands. -/
def ap_switch (port : PortType) (s : STLink) (d : Dev) : PRes Unit :=
  match port with
  | PortType.AccessPort port_number =>
    match s.current_ap with
    | some current_ap =>
      if current_ap ≠ port_number then
        match close_ap (current_ap % 256) s d with
        | (Except.error f, s1, d1) => (Except.error f, s1, d1)
        | (Except.ok _, s1, d1) =>
          match open_ap (port_number % 256) s1 d1 with
          | (Except.error f, s2, d2) => (Except.error f, s2, d2)
          | (Except.ok _, s2, d2) => (Except.ok (), { s2 with current_ap := some port_number }, d2)
      else (Except.ok (), { s with current_ap := some port_number }, d)
    | none =>
      match open_ap (port_number % 256) s d with
      | (Except.error f, s1, d1) => (Except.error f, s1, d1)
      | (Except.ok _, s1, d1) => (Except.ok (), { s1 with current_ap := some port_number }, d1)
  | _ => (Except.ok (), s, d)

/- read_register (lines 209-243). -/
def read_register (port : PortType) (addr : Nat) (s : STLink) (d : Dev) : PRes Nat :=
  if addr &&& 0xf0 = 0 ∨ port ≠ PortType.DebugPort then
    match ap_switch port s d with
    | (Except.error f, s1, d1) => (Except.error f, s1, d1)
    | (Except.ok _, s1, d1) =>
      match devWrite (readDapCmd port addr) 8 d1 with
      | (Except.error e, d2) => (Except.error (Failure.err e), s1, d2)
      | (Except.ok buf, d2) =>
        match check_status buf with
        | Except.error e => (Except.error (Failure.err e), s1, d2)
        | Except.ok _ =>
          (Except.ok (leWord4 (buf.getD 4 0) (buf.getD 5 0) (buf.getD 6 0) (buf.getD 7 0)), s1, d2)
  else (Except.error (Failure.err (DebugProbeError.ProbeSpecific StlinkError.BlanksNotAllowedOnDPRegister)), s, d)

/- write_register (lines 246-288). -/
def write_register (port : PortType) (addr : Nat) (value : Nat)
    (s : STLink) (d : Dev) : PRes Unit :=
  if addr &&& 0xf0 = 0 ∨ port ≠ PortType.DebugPort then
    match ap_switch port s d with
    | (Except.error f, s1, d1) => (Except.error f, s1, d1)
    | (Except.ok _, s1, d1) =>
      match devWrite (writeDapCmd port addr value) 2 d1 with
      | (Except.error e, d2) => (Except.error (Failure.err e), s1, d2)
      | (Except.ok buf, d2) =>
        match check_status buf with
        | Except.error e => (Except.error (Failure.err e), s1, d2)
        | Except.ok _ => (Except.ok (), s1, d2)
  else (Except.error (Failure.err (DebugProbeError.ProbeSpecific StlinkError.BlanksNotAllowedOnDPRegister)), s, d)

/- target_reset (lines 162-176). -/
def target_reset (s : STLink) (d : Dev) : PRes Unit :=
  match devWrite [commands.JTAG_COMMAND, commands.JTAG_DRIVE_NRST,
                  commands.JTAG_DRIVE_NRST_PULSE] 2 d with
  | (Except.error e, d1) => (Except.error (Failure.err e), s, d1)
  | (Except.ok buf, d1) =>
    match check_status buf with
    | Except.error e => (Except.error (Failure.err e), s, d1)
    | Except.ok _ => (Except.ok (), s, d1)

/- attach (lines 112-153). -/
def attach (s : STLink) (d : Dev) : PRes Unit :=
  match enter_idle s d with
  | (Except.error f, s1, d1) => (Except.error f, s1, d1)
  | (Except.ok _, s1, d1) =>
    let param := match s1.protocol with
      | WireProtocol.Jtag => commands.JTAG_ENTER_JTAG_NO_CORE_RESET
      | WireProtocol.Swd => commands.JTAG_ENTER_SWD
    match devWrite [commands.JTAG_COMMAND, commands.JTAG_ENTER2, param, 0] 2 d1 with
    | (Except.error e, d2) => (Except.error (Failure.err e), s1, d2)
    | (Except.ok buf, d2) =>
      match check_status buf with
      | Except.error e => (Except.error (Failure.err e), s1, d2)
      | Except.ok _ =>
        match s1.protocol with
        | WireProtocol.Jtag =>
          match set_speed s1.jtag_speed_khz s1 d2 with
          | (Except.error f, s2, d3) => (Except.error f, s2, d3)
          | (Except.ok _, s2, d3) => (Except.ok (), s2, d3)
        | WireProtocol.Swd =>
          match set_speed s1.swd_speed_khz s1 d2 with
          | (Except.error f, s2, d3) => (Except.error f, s2, d3)
          | (Except.ok _, s2, d3) => (Except.ok (), s2, d3)

/- detach (lines 156-159). -/
def detach (s : STLink) (d : Dev) : PRes Unit :=
  enter_idle s d

/- The part of init after idle entry has succeeded (lines 461-472): version
query, the v3-only speed query for both modes, and the voltage read. -/
def init_rest (s : STLink) (d : Dev) : PRes Unit :=
  match get_version s d with
  | (Except.error f, s1, d1) => (Except.error f, s1, d1)
  | (Except.ok _, s1, d1) =>
    let step : PRes Unit :=
      if s1.hw_version = 3 then
        match get_communication_frequencies WireProtocol.Swd s1 d1 with
        | (Except.error f, s2, d2) => (Except.error f, s2, d2)
        | (Except.ok (_, current), s2, d2) =>
          let s3 : STLink := { s2 with swd_speed_khz := current }
          match get_communication_frequencies WireProtocol.Jtag s3 d2 with
          | (Except.error f, s4, d3) => (Except.error f, s4, d3)
          | (Except.ok (_, current2), s4, d3) =>
            (Except.ok (), { s4 with jtag_speed_khz := current2 }, d3)
      else (Except.ok (), s1, d1)
    match step with
    | (Except.error f, s2, d2) => (Except.error f, s2, d2)
    | (Except.ok _, s2, d2) =>
      match get_target_voltage s2 d2 with
      | (Except.error f, s3, d3) => (Except.error f, s3, d3)
      | (Except.ok _, s3, d3) => (Except.ok (), s3, d3)

/- init (lines 445-473): idle entry; on a transport-level (USB) failure reset
the transport once and retry idle entry once; any other failure is returned
immediately. -/
def init (s : STLink) (d : Dev) : PRes Unit :=
  match enter_idle s d with
  | (Except.ok _, s1, d1) => init_rest s1 d1
  | (Except.error (Failure.err DebugProbeError.USB), s1, d1) =>
    match devReset d1 with
    | (Except.error e, d2) => (Except.error (Failure.err e), s1, d2)
    | (Except.ok _, d2) =>
      match enter_idle s1 d2 with
      | (Except.error f, s2, d3) => (Except.error f, s2, d3)
      | (Except.ok _, s2, d3) => init_rest s2 d3
  | (Except.error f, s1, d1) => (Except.error f, s1, d1)

/- new_from_probe_info (lines 31-46): construct with the default field values,
then run init. -/
def new_from_probe_info (d : Dev) : PRes STLink :=
  match init defaultSTLink d with
  | (Except.error f, s1, d1) => (Except.error f, s1, d1)
  | (Except.ok _, s1, d1) => (Except.ok s1, s1, d1)

end STLink

/- A DAP register access call, for stating properties of call sequences. -/
inductive DapCall
  | rd (port : PortType) (addr : Nat)
  | wr (port : PortType) (addr : Nat) (value : Nat)
deriving DecidableEq

/- The Access Port number a call addresses, if any. -/
def apOf : DapCall → Option Nat
  | DapCall.rd (PortType.AccessPort n) _ => some n
  | DapCall.wr (PortType.AccessPort n) _ _ => some n
  | _ => none

/- The transfer command a call sends. -/
def transferCmd : DapCall → List Nat
  | DapCall.rd port addr => readDapCmd port addr
  | DapCall.wr port addr value => writeDapCmd port addr value

/- Run a call through the driver, discarding the value a read returns. -/
def runCall : DapCall → STLink → Dev → PRes Unit
  | DapCall.rd port addr, s, d =>
    match STLink.read_register port addr s d with
    | (Except.ok _, s1, d1) => (Except.ok (), s1, d1)
    | (Except.error f, s1, d1) => (Except.error f, s1, d1)
  | DapCall.wr port addr value, s, d => STLink.write_register port addr value s d

/- Success test for an operation outcome. -/
def isOkE {ε α : Type} : Except ε α → Bool
  | Except.ok _ => true
  | Except.error _ => false

/- Whether a device response passes check_status (command issued, status ok). -/
def respOk : Option (List Nat) → Bool
  | none => false
  | some resp => isOkE (STLink.check_status resp)

/- Multi-AP support precondition of open_ap and close_ap (lines 570, 586). -/
def multiApOk (s : STLink) : Prop :=
  ¬(s.hw_version < 3 ∧ s.jtag_version < STLink.MIN_JTAG_VERSION_MULTI_AP)

instance (s : STLink) : Decidable (multiApOk s) := by
  unfold multiApOk; infer_instance

/- The version-independent driver fields: everything except the version fields
and current_ap. -/
def fieldsEq (a b : STLink) : Prop :=
  a.hw_version = b.hw_version ∧ a.jtag_version = b.jtag_version ∧
  a.protocol = b.protocol ∧ a.swd_speed_khz = b.swd_speed_khz ∧
  a.jtag_speed_khz = b.jtag_speed_khz

/- Number of transport resets in a trace. -/
def countReset (t : List DevEvent) : Nat :=
  (t.filter (fun e => e = DevEvent.reset)).length

/- Number of writes of a given command in a trace. -/
def countW (cmd : List Nat) (t : List DevEvent) : Nat :=
  (t.filter (fun e => e = DevEvent.write cmd)).length

/- The device state after one command write: count advanced, command traced. -/
def dStep (cmd : List Nat) (d : Dev) : Dev :=
  { d with count := d.count + 1, trace := d.trace ++ [DevEvent.write cmd] }

/- The device state after one transport reset. -/
def dResetStep (d : Dev) : Dev :=
  { d with resetCount := d.resetCount + 1, trace := d.trace ++ [DevEvent.reset] }

/- A run from d to a final device that performed no transport reset and never
issued the same command twice: in particular it retried nothing. -/
def noRetryFrom (d d' : Dev) : Prop :=
  ∃ δ, d'.trace = d.trace ++ δ ∧ DevEvent.reset ∉ δ ∧ δ.Nodup

/- Concrete device fixtures for evaluating the operations at specific inputs. -/
def okOracle (resp : List Nat) : Nat → Option (List Nat) := fun _ => some resp

def mkDev (f : Nat → Option (List Nat)) : Dev :=
  { oracle := f, resetOracle := fun _ => true, count := 0, resetCount := 0, trace := [] }

theorem devWrite_run (cmd : List Nat) (len : Nat) (d : Dev) :
    devWrite cmd len d =
      ((match d.oracle d.count with
        | none => Except.error DebugProbeError.USB
        | some resp => Except.ok (padTo len resp)), dStep cmd d) := by
  unfold devWrite dStep
  cases d.oracle d.count <;> rfl

theorem devReset_run (d : Dev) :
    devReset d =
      ((if d.resetOracle d.resetCount then Except.ok () else Except.error DebugProbeError.USB),
       dResetStep d) := by
  unfold devReset dResetStep
  by_cases h : d.resetOracle d.resetCount <;> simp [h]

theorem padTo_nil (len : Nat) : padTo len [] = List.replicate len 0 := by
  simp [padTo]

theorem padTo_cons (len : Nat) (a : Nat) (t : List Nat) :
    padTo (len + 1) (a :: t) = a :: padTo len t := by
  simp [padTo, List.take_succ_cons, Nat.succ_sub_succ]

theorem padTo_getD (len i : Nat) (resp : List Nat) (h : i < len) :
    (padTo len resp).getD i 0 = resp.getD i 0 := by
  induction resp generalizing len i with
  | nil =>
    rw [padTo_nil]
    simp [List.getD, List.getElem?_getD_replicate_default_eq]
  | cons a t ih =>
    cases len with
    | zero => omega
    | succ l =>
      rw [padTo_cons]
      cases i with
      | zero => rfl
      | succ j => simpa using ih l j (by omega)

theorem check_status_padTo (len : Nat) (resp : List Nat) (h : 0 < len) :
    STLink.check_status (padTo len resp) = STLink.check_status resp := by
  unfold STLink.check_status
  rw [padTo_getD len 0 resp h]

theorem check_status_ok_iff (buf : List Nat) :
    STLink.check_status buf = Except.ok () ↔
      Status.fromU8 (buf.getD 0 0) = some Status.JtagOk := by
  unfold STLink.check_status
  rcases h : Status.fromU8 (buf.getD 0 0) with _ | st
  · simp
  · by_cases hst : st = Status.JtagOk <;> simp [hst]

theorem respOk_true_iff (resp : List Nat) :
    respOk (some resp) = true ↔ STLink.check_status resp = Except.ok () := by
  unfold respOk isOkE
  rcases h : STLink.check_status resp with e | u
  · simp [h]
  · cases u; simp [h]

theorem respOk_false_iff (resp : List Nat) :
    respOk (some resp) = false ↔ ∃ e, STLink.check_status resp = Except.error e := by
  unfold respOk isOkE
  rcases h : STLink.check_status resp with e | u
  · simp [h]
  · cases u; simp [h]

theorem close_ap_eq (a : Nat) (s : STLink) (d : Dev) (hg : multiApOk s) :
    STLink.close_ap a s d =
      match d.oracle d.count with
      | none => (Except.error (Failure.err DebugProbeError.USB), s, dStep (closeApCmd a) d)
      | some resp =>
        match STLink.check_status resp with
        | Except.error e => (Except.error (Failure.err e), s, dStep (closeApCmd a) d)
        | Except.ok _ => (Except.ok (), s, dStep (closeApCmd a) d) := by
  unfold STLink.close_ap
  rw [if_neg hg, devWrite_run]
  rcases hor : d.oracle d.count with _ | resp
  all_goals try rfl
  all_goals simp only [check_status_padTo 2 resp (by norm_num)]

theorem open_ap_eq (a : Nat) (s : STLink) (d : Dev) (hg : multiApOk s) :
    STLink.open_ap a s d =
      match d.oracle d.count with
      | none => (Except.error (Failure.err DebugProbeError.USB), s, dStep (openApCmd a) d)
      | some resp =>
        match STLink.check_status resp with
        | Except.error e => (Except.error (Failure.err e), s, dStep (openApCmd a) d)
        | Except.ok _ => (Except.ok (), s, dStep (openApCmd a) d) := by
  unfold STLink.open_ap
  rw [if_neg hg, devWrite_run]
  rcases hor : d.oracle d.count with _ | resp
  all_goals try rfl
  all_goals simp only [check_status_padTo 2 resp (by norm_num)]

theorem open_ap_guard (a : Nat) (s : STLink) (d : Dev) (hg : ¬multiApOk s) :
    STLink.open_ap a s d =
      (Except.error (Failure.err (DebugProbeError.ProbeSpecific
        StlinkError.JTagDoesNotSupportMultipleAP)), s, d) := by
  unfold STLink.open_ap
  rw [if_pos (by unfold multiApOk at hg; omega)]

theorem set_swd_frequency_eq (f : Nat) (s : STLink) (d : Dev) :
    STLink.set_swd_frequency f s d =
      (let cmd := [commands.JTAG_COMMAND, commands.SWD_SET_FREQ, SwdFrequencyToDelayCount.code f]
      match d.oracle d.count with
      | none => (Except.error (Failure.err DebugProbeError.USB), s, dStep cmd d)
      | some resp =>
        match STLink.check_status resp with
        | Except.error e => (Except.error (Failure.err e), s, dStep cmd d)
        | Except.ok _ => (Except.ok (), s, dStep cmd d)) := by
  unfold STLink.set_swd_frequency
  rw [devWrite_run]
  rcases hor : d.oracle d.count with _ | resp
  all_goals try rfl
  all_goals simp only [check_status_padTo 2 resp (by norm_num)]

theorem set_jtag_frequency_eq (f : Nat) (s : STLink) (d : Dev) :
    STLink.set_jtag_frequency f s d =
      (let cmd := [commands.JTAG_COMMAND, commands.JTAG_SET_FREQ, JTagFrequencyToDivider.code f]
      match d.oracle d.count with
      | none => (Except.error (Failure.err DebugProbeError.USB), s, dStep cmd d)
      | some resp =>
        match STLink.check_status resp with
        | Except.error e => (Except.error (Failure.err e), s, dStep cmd d)
        | Except.ok _ => (Except.ok (), s, dStep cmd d)) := by
  unfold STLink.set_jtag_frequency
  rw [devWrite_run]
  rcases hor : d.oracle d.count with _ | resp
  all_goals try rfl
  all_goals simp only [check_status_padTo 2 resp (by norm_num)]

theorem set_communication_frequency_eq (p : WireProtocol) (freq : Nat)
    (s : STLink) (d : Dev) (h3 : s.hw_version = 3) :
    STLink.set_communication_frequency p freq s d =
      (let cp : Nat := match p with
        | WireProtocol.Swd => 0
        | WireProtocol.Jtag => 1
      match d.oracle d.count with
      | none => (Except.error (Failure.err DebugProbeError.USB), s, dStep (setComFreqCmd cp freq) d)
      | some resp =>
        match STLink.check_status resp with
        | Except.error e => (Except.error (Failure.err e), s, dStep (setComFreqCmd cp freq) d)
        | Except.ok _ => (Except.ok (), s, dStep (setComFreqCmd cp freq) d)) := by
  unfold STLink.set_communication_frequency
  rw [if_pos h3]
  dsimp only
  rw [devWrite_run]
  rcases hor : d.oracle d.count with _ | resp
  all_goals try rfl
  all_goals simp only [check_status_padTo 8 resp (by norm_num)]

theorem get_communication_frequencies_eq (p : WireProtocol)
    (s : STLink) (d : Dev) (h3 : s.hw_version = 3) :
    STLink.get_communication_frequencies p s d =
      (let cp : Nat := match p with
        | WireProtocol.Swd => 0
        | WireProtocol.Jtag => 1
      match d.oracle d.count with
      | none => (Except.error (Failure.err DebugProbeError.USB), s, dStep (getComFreqCmd cp) d)
      | some resp =>
        match STLink.check_status resp with
        | Except.error e => (Except.error (Failure.err e), s, dStep (getComFreqCmd cp) d)
        | Except.ok _ =>
          let values := leWords (padTo 52 resp)
          (Except.ok ((values.drop 3 ++ values.take 3).take (min (values.getD 2 0) 10),
            values.getD 1 0), s, dStep (getComFreqCmd cp) d)) := by
  unfold STLink.get_communication_frequencies
  rw [if_pos h3]
  dsimp only
  rw [devWrite_run]
  rcases hor : d.oracle d.count with _ | resp
  all_goals try rfl
  all_goals simp only [check_status_padTo 52 resp (by norm_num)]

theorem target_reset_eq (s : STLink) (d : Dev) :
    STLink.target_reset s d =
      (let cmd := [commands.JTAG_COMMAND, commands.JTAG_DRIVE_NRST, commands.JTAG_DRIVE_NRST_PULSE]
      match d.oracle d.count with
      | none => (Except.error (Failure.err DebugProbeError.USB), s, dStep cmd d)
      | some resp =>
        match STLink.check_status resp with
        | Except.error e => (Except.error (Failure.err e), s, dStep cmd d)
        | Except.ok _ => (Except.ok (), s, dStep cmd d)) := by
  unfold STLink.target_reset
  rw [devWrite_run]
  rcases hor : d.oracle d.count with _ | resp
  all_goals try rfl
  all_goals simp only [check_status_padTo 2 resp (by norm_num)]

theorem get_current_mode_eq (s : STLink) (d : Dev) :
    STLink.get_current_mode s d =
      match d.oracle d.count with
      | none =>
        (Except.error (Failure.err DebugProbeError.USB), s, dStep [commands.GET_CURRENT_MODE] d)
      | some resp =>
        match resp.getD 0 0 with
        | 0 => (Except.ok Mode.Dfu, s, dStep [commands.GET_CURRENT_MODE] d)
        | 1 => (Except.ok Mode.MassStorage, s, dStep [commands.GET_CURRENT_MODE] d)
        | 2 => (Except.ok Mode.Jtag, s, dStep [commands.GET_CURRENT_MODE] d)
        | 3 => (Except.ok Mode.Swim, s, dStep [commands.GET_CURRENT_MODE] d)
        | _ => (Except.error (Failure.err (DebugProbeError.ProbeSpecific StlinkError.UnknownMode)),
                s, dStep [commands.GET_CURRENT_MODE] d) := by
  unfold STLink.get_current_mode
  rw [devWrite_run]
  rcases hor : d.oracle d.count with _ | resp
  all_goals try rfl
  all_goals simp only [padTo_getD 2 0 resp (by norm_num)]

theorem get_target_voltage_eq (s : STLink) (d : Dev) :
    STLink.get_target_voltage s d =
      match d.oracle d.count with
      | none =>
        (Except.error (Failure.err DebugProbeError.USB), s, dStep [commands.GET_TARGET_VOLTAGE] d)
      | some resp =>
        let a0 := leWord4 (resp.getD 0 0) (resp.getD 1 0) (resp.getD 2 0) (resp.getD 3 0)
        let a1 := leWord4 (resp.getD 4 0) (resp.getD 5 0) (resp.getD 6 0) (resp.getD 7 0)
        if a0 ≠ 0 then
          (Except.ok (2 * (a1 : ℚ) * (12 / 10) / (a0 : ℚ)), s, dStep [commands.GET_TARGET_VOLTAGE] d)
        else
          (Except.error (Failure.err (DebugProbeError.ProbeSpecific StlinkError.VoltageDivisionByZero)),
           s, dStep [commands.GET_TARGET_VOLTAGE] d) := by
  unfold STLink.get_target_voltage
  rw [devWrite_run]
  rcases hor : d.oracle d.count with _ | resp
  all_goals try rfl
  all_goals simp only [padTo_getD 8 0 resp (by norm_num), padTo_getD 8 1 resp (by norm_num),
    padTo_getD 8 2 resp (by norm_num), padTo_getD 8 3 resp (by norm_num),
    padTo_getD 8 4 resp (by norm_num), padTo_getD 8 5 resp (by norm_num),
    padTo_getD 8 6 resp (by norm_num), padTo_getD 8 7 resp (by norm_num)]

theorem stlink_eta_current_ap (s : STLink) (n : Nat) (h : s.current_ap = some n) :
    { s with current_ap := some n } = s := by
  cases s
  simp only at h
  rw [h]

theorem ap_switch_dp (s : STLink) (d : Dev) :
    STLink.ap_switch PortType.DebugPort s d = (Except.ok (), s, d) := rfl

theorem ap_switch_same (n : Nat) (s : STLink) (d : Dev) (h : s.current_ap = some n) :
    STLink.ap_switch (PortType.AccessPort n) s d = (Except.ok (), s, d) := by
  unfold STLink.ap_switch
  rw [h]
  dsimp only
  rw [if_neg (by simp)]
  rw [stlink_eta_current_ap s n h]

theorem ap_switch_close_fail (m n : Nat) (s : STLink) (d : Dev)
    (hm : s.current_ap = some m) (hmn : m ≠ n) (hg : multiApOk s)
    (hr : respOk (d.oracle d.count) = false) :
    ∃ f, STLink.ap_switch (PortType.AccessPort n) s d =
      (Except.error f, s, dStep (closeApCmd (m % 256)) d) := by
  unfold STLink.ap_switch
  rw [hm]
  dsimp only
  rw [if_pos hmn]
  rw [close_ap_eq _ _ _ hg]
  rcases hor : d.oracle d.count with _ | resp
  · exact ⟨_, rfl⟩
  · rw [hor] at hr
    obtain ⟨e, hcs⟩ := (respOk_false_iff resp).mp hr
    dsimp only
    rw [hcs]
    exact ⟨_, rfl⟩

theorem ap_switch_open_fail (m n : Nat) (s : STLink) (d : Dev)
    (hm : s.current_ap = some m) (hmn : m ≠ n) (hg : multiApOk s)
    (h1 : respOk (d.oracle d.count) = true)
    (h2 : respOk (d.oracle (d.count + 1)) = false) :
    ∃ f, STLink.ap_switch (PortType.AccessPort n) s d =
      (Except.error f, s, dStep (openApCmd (n % 256)) (dStep (closeApCmd (m % 256)) d)) := by
  unfold STLink.ap_switch
  rw [hm]
  dsimp only
  rw [if_pos hmn]
  rw [close_ap_eq _ _ _ hg]
  rcases hor : d.oracle d.count with _ | resp
  · rw [hor] at h1; simp [respOk] at h1
  · rw [hor] at h1
    dsimp only
    rw [(respOk_true_iff resp).mp h1]
    dsimp only
    rw [open_ap_eq _ _ _ hg]
    have hoc : (dStep (closeApCmd (m % 256)) d).oracle ((dStep (closeApCmd (m % 256)) d).count) =
        d.oracle (d.count + 1) := by simp [dStep]
    rw [hoc]
    rcases hor2 : d.oracle (d.count + 1) with _ | resp2
    · exact ⟨_, rfl⟩
    · rw [hor2] at h2
      obtain ⟨e, hcs⟩ := (respOk_false_iff resp2).mp h2
      dsimp only
      rw [hcs]
      exact ⟨_, rfl⟩

theorem ap_switch_switch_ok (m n : Nat) (s : STLink) (d : Dev)
    (hm : s.current_ap = some m) (hmn : m ≠ n) (hg : multiApOk s)
    (h1 : respOk (d.oracle d.count) = true)
    (h2 : respOk (d.oracle (d.count + 1)) = true) :
    STLink.ap_switch (PortType.AccessPort n) s d =
      (Except.ok (), { s with current_ap := some n },
       dStep (openApCmd (n % 256)) (dStep (closeApCmd (m % 256)) d)) := by
  unfold STLink.ap_switch
  rw [hm]
  dsimp only
  rw [if_pos hmn]
  rw [close_ap_eq _ _ _ hg]
  rcases hor : d.oracle d.count with _ | resp
  · rw [hor] at h1; simp [respOk] at h1
  · rw [hor] at h1
    dsimp only
    rw [(respOk_true_iff resp).mp h1]
    dsimp only
    rw [open_ap_eq _ _ _ hg]
    have hoc : (dStep (closeApCmd (m % 256)) d).oracle ((dStep (closeApCmd (m % 256)) d).count) =
        d.oracle (d.count + 1) := by simp [dStep]
    rw [hoc]
    rcases hor2 : d.oracle (d.count + 1) with _ | resp2
    · rw [hor2] at h2; simp [respOk] at h2
    · rw [hor2] at h2
      dsimp only
      rw [(respOk_true_iff resp2).mp h2]

theorem ap_switch_none_fail (n : Nat) (s : STLink) (d : Dev)
    (hm : s.current_ap = none) (hg : multiApOk s)
    (hr : respOk (d.oracle d.count) = false) :
    ∃ f, STLink.ap_switch (PortType.AccessPort n) s d =
      (Except.error f, s, dStep (openApCmd (n % 256)) d) := by
  unfold STLink.ap_switch
  rw [hm]
  dsimp only
  rw [open_ap_eq _ _ _ hg]
  rcases hor : d.oracle d.count with _ | resp
  · exact ⟨_, rfl⟩
  · rw [hor] at hr
    obtain ⟨e, hcs⟩ := (respOk_false_iff resp).mp hr
    dsimp only
    rw [hcs]
    exact ⟨_, rfl⟩

theorem ap_switch_none_ok (n : Nat) (s : STLink) (d : Dev)
    (hm : s.current_ap = none) (hg : multiApOk s)
    (hr : respOk (d.oracle d.count) = true) :
    STLink.ap_switch (PortType.AccessPort n) s d =
      (Except.ok (), { s with current_ap := some n }, dStep (openApCmd (n % 256)) d) := by
  unfold STLink.ap_switch
  rw [hm]
  dsimp only
  rw [open_ap_eq _ _ _ hg]
  rcases hor : d.oracle d.count with _ | resp
  · rw [hor] at hr; simp [respOk] at hr
  · rw [hor] at hr
    dsimp only
    rw [(respOk_true_iff resp).mp hr]

theorem ap_switch_none_guard (n : Nat) (s : STLink) (d : Dev)
    (hm : s.current_ap = none) (hg : ¬multiApOk s) :
    STLink.ap_switch (PortType.AccessPort n) s d =
      (Except.error (Failure.err (DebugProbeError.ProbeSpecific
        StlinkError.JTagDoesNotSupportMultipleAP)), s, d) := by
  unfold STLink.ap_switch
  rw [hm]
  dsimp only
  rw [open_ap_guard _ _ _ hg]

theorem rr_switch_err (n addr : Nat) (s : STLink) (d : Dev) (f : Failure)
    (s1 : STLink) (d1 : Dev)
    (h : STLink.ap_switch (PortType.AccessPort n) s d = (Except.error f, s1, d1)) :
    STLink.read_register (PortType.AccessPort n) addr s d = (Except.error f, s1, d1) := by
  unfold STLink.read_register
  rw [if_pos (Or.inr (by simp)), h]

theorem rr_switch_ok (n addr : Nat) (s : STLink) (d : Dev) (s1 : STLink) (d1 : Dev)
    (h : STLink.ap_switch (PortType.AccessPort n) s d = (Except.ok (), s1, d1)) :
    (respOk (d1.oracle d1.count) = true →
      ∃ v, STLink.read_register (PortType.AccessPort n) addr s d =
        (Except.ok v, s1, dStep (readDapCmd (PortType.AccessPort n) addr) d1)) ∧
    (respOk (d1.oracle d1.count) = false →
      ∃ f, STLink.read_register (PortType.AccessPort n) addr s d =
        (Except.error f, s1, dStep (readDapCmd (PortType.AccessPort n) addr) d1)) := by
  unfold STLink.read_register
  rw [if_pos (Or.inr (by simp)), h]
  dsimp only
  rw [devWrite_run]
  rcases hor : d1.oracle d1.count with _ | resp
  · constructor
    · intro ht; simp [respOk] at ht
    · intro _; exact ⟨_, rfl⟩
  · constructor
    · intro ht
      dsimp only
      rw [check_status_padTo 8 resp (by norm_num), (respOk_true_iff resp).mp ht]
      exact ⟨_, rfl⟩
    · intro hf
      obtain ⟨e, hcs⟩ := (respOk_false_iff resp).mp hf
      dsimp only
      rw [check_status_padTo 8 resp (by norm_num), hcs]
      exact ⟨_, rfl⟩

theorem wr_switch_err (n addr value : Nat) (s : STLink) (d : Dev) (f : Failure)
    (s1 : STLink) (d1 : Dev)
    (h : STLink.ap_switch (PortType.AccessPort n) s d = (Except.error f, s1, d1)) :
    STLink.write_register (PortType.AccessPort n) addr value s d = (Except.error f, s1, d1) := by
  unfold STLink.write_register
  rw [if_pos (Or.inr (by simp)), h]

theorem wr_switch_ok (n addr value : Nat) (s : STLink) (d : Dev) (s1 : STLink) (d1 : Dev)
    (h : STLink.ap_switch (PortType.AccessPort n) s d = (Except.ok (), s1, d1)) :
    (respOk (d1.oracle d1.count) = true →
      STLink.write_register (PortType.AccessPort n) addr value s d =
        (Except.ok (), s1, dStep (writeDapCmd (PortType.AccessPort n) addr value) d1)) ∧
    (respOk (d1.oracle d1.count) = false →
      ∃ f, STLink.write_register (PortType.AccessPort n) addr value s d =
        (Except.error f, s1, dStep (writeDapCmd (PortType.AccessPort n) addr value) d1)) := by
  unfold STLink.write_register
  rw [if_pos (Or.inr (by simp)), h]
  dsimp only
  rw [devWrite_run]
  rcases hor : d1.oracle d1.count with _ | resp
  · constructor
    · intro ht; simp [respOk] at ht
    · intro _; exact ⟨_, rfl⟩
  · constructor
    · intro ht
      dsimp only
      rw [check_status_padTo 2 resp (by norm_num), (respOk_true_iff resp).mp ht]
    · intro hf
      obtain ⟨e, hcs⟩ := (respOk_false_iff resp).mp hf
      dsimp only
      rw [check_status_padTo 2 resp (by norm_num), hcs]
      exact ⟨_, rfl⟩

theorem rr_dp_blank (addr : Nat) (s : STLink) (d : Dev) (h : addr &&& 0xf0 ≠ 0) :
    STLink.read_register PortType.DebugPort addr s d =
      (Except.error (Failure.err (DebugProbeError.ProbeSpecific
        StlinkError.BlanksNotAllowedOnDPRegister)), s, d) := by
  unfold STLink.read_register
  rw [if_neg (by simp [h])]

theorem wr_dp_blank (addr value : Nat) (s : STLink) (d : Dev) (h : addr &&& 0xf0 ≠ 0) :
    STLink.write_register PortType.DebugPort addr value s d =
      (Except.error (Failure.err (DebugProbeError.ProbeSpecific
        StlinkError.BlanksNotAllowedOnDPRegister)), s, d) := by
  unfold STLink.write_register
  rw [if_neg (by simp [h])]

theorem rr_dp_zero (addr : Nat) (s : STLink) (d : Dev) (h : addr &&& 0xf0 = 0) :
    STLink.read_register PortType.DebugPort addr s d =
      (match d.oracle d.count with
       | none => (Except.error (Failure.err DebugProbeError.USB), s,
                  dStep (readDapCmd PortType.DebugPort addr) d)
       | some resp =>
         match STLink.check_status resp with
         | Except.error e => (Except.error (Failure.err e), s,
                              dStep (readDapCmd PortType.DebugPort addr) d)
         | Except.ok _ =>
           (Except.ok (leWord4 ((padTo 8 resp).getD 4 0) ((padTo 8 resp).getD 5 0)
              ((padTo 8 resp).getD 6 0) ((padTo 8 resp).getD 7 0)), s,
            dStep (readDapCmd PortType.DebugPort addr) d)) := by
  unfold STLink.read_register
  rw [if_pos (Or.inl h), ap_switch_dp]
  dsimp only
  rw [devWrite_run]
  rcases hor : d.oracle d.count with _ | resp
  · rfl
  · dsimp only
    rw [check_status_padTo 8 resp (by norm_num)]

theorem wr_dp_zero (addr value : Nat) (s : STLink) (d : Dev) (h : addr &&& 0xf0 = 0) :
    STLink.write_register PortType.DebugPort addr value s d =
      (match d.oracle d.count with
       | none => (Except.error (Failure.err DebugProbeError.USB), s,
                  dStep (writeDapCmd PortType.DebugPort addr value) d)
       | some resp =>
         match STLink.check_status resp with
         | Except.error e => (Except.error (Failure.err e), s,
                              dStep (writeDapCmd PortType.DebugPort addr value) d)
         | Except.ok _ =>
           (Except.ok (), s, dStep (writeDapCmd PortType.DebugPort addr value) d)) := by
  unfold STLink.write_register
  rw [if_pos (Or.inl h), ap_switch_dp]
  dsimp only
  rw [devWrite_run]
  rcases hor : d.oracle d.count with _ | resp
  · rfl
  · dsimp only
    rw [check_status_padTo 2 resp (by norm_num)]

theorem dStep_oracle (c : List Nat) (d : Dev) : (dStep c d).oracle = d.oracle := rfl

theorem dStep_count (c : List Nat) (d : Dev) : (dStep c d).count = d.count + 1 := rfl

theorem dStep_trace (c : List Nat) (d : Dev) :
    (dStep c d).trace = d.trace ++ [DevEvent.write c] := rfl

/-- C1: the source reaches the unimplemented macro for hardware version 4 and
above, so every set_speed call aborts the process (modelled as the panic
outcome) instead of returning the typed unsupported-hardware-generation error
that the spec mandates. -/
theorem set_speed_hw4_aborts : ∀ (s : STLink) (d : Dev) (speed_khz : Nat),
    4 ≤ s.hw_version →
    STLink.set_speed speed_khz s d = (Except.error (Failure.panic "not implemented"), s, d) := by
  intro s d k h
  unfold STLink.set_speed
  rw [if_neg (by omega), if_neg (by omega)]

theorem set_speed_hw4_aborts_witness :
    STLink.set_speed 1000 { defaultSTLink with hw_version := 4 } (mkDev (okOracle [0x80])) =
      (Except.error (Failure.panic "not implemented"),
       { defaultSTLink with hw_version := 4 }, mkDev (okOracle [0x80])) :=
  set_speed_hw4_aborts { defaultSTLink with hw_version := 4 } (mkDev (okOracle [0x80])) 1000
    (by decide)

/-- C5: check_status returns success exactly when response byte 0 is the
success code; any other known code is reported as a command failure carrying
exactly that code; an unrecognized byte is reported as a command failure
carrying the distinguished Unknown code. -/
theorem check_status_validation : ∀ buf : List Nat,
    (Status.fromU8 (buf.getD 0 0) = some Status.JtagOk → STLink.check_status buf = Except.ok ()) ∧
    (∀ st, Status.fromU8 (buf.getD 0 0) = some st → st ≠ Status.JtagOk →
      STLink.check_status buf =
        Except.error (DebugProbeError.ProbeSpecific (StlinkError.CommandFailed st))) ∧
    (Status.fromU8 (buf.getD 0 0) = none →
      STLink.check_status buf =
        Except.error (DebugProbeError.ProbeSpecific (StlinkError.CommandFailed Status.Unknown))) := by
  intro buf
  unfold STLink.check_status
  refine ⟨?_, ?_, ?_⟩
  · intro h; rw [h]; simp
  · intro st h hne; rw [h]; simp [hne]
  · intro h; rw [h]

theorem check_status_validation_witness :
    STLink.check_status [0x80, 0] = Except.ok () ∧
    STLink.check_status [0x01, 0] =
      Except.error (DebugProbeError.ProbeSpecific
        (StlinkError.CommandFailed Status.JtagUnknownError)) ∧
    STLink.check_status [0x55, 0] =
      Except.error (DebugProbeError.ProbeSpecific (StlinkError.CommandFailed Status.Unknown)) :=
  ⟨(check_status_validation [0x80, 0]).1 (by decide),
   (check_status_validation [0x01, 0]).2.1 Status.JtagUnknownError (by decide) (by decide),
   (check_status_validation [0x55, 0]).2.2 (by decide)⟩

/-- C9: get_target_voltage fails with the division-by-zero error exactly when
the first little-endian sample word is 0, and otherwise returns
2 * sample1 * 1.2 / sample0 (f32 arithmetic modelled over the rationals). -/
theorem target_voltage_spec : ∀ (s : STLink) (d : Dev) (resp : List Nat),
    d.oracle d.count = some resp →
    ((STLink.get_target_voltage s d).1 =
        Except.error (Failure.err (DebugProbeError.ProbeSpecific
          StlinkError.VoltageDivisionByZero)) ↔
      leWord4 (resp.getD 0 0) (resp.getD 1 0) (resp.getD 2 0) (resp.getD 3 0) = 0) ∧
    (leWord4 (resp.getD 0 0) (resp.getD 1 0) (resp.getD 2 0) (resp.getD 3 0) ≠ 0 →
      (STLink.get_target_voltage s d).1 = Except.ok
        (2 * (leWord4 (resp.getD 4 0) (resp.getD 5 0) (resp.getD 6 0) (resp.getD 7 0) : ℚ) *
          (12 / 10) /
          (leWord4 (resp.getD 0 0) (resp.getD 1 0) (resp.getD 2 0) (resp.getD 3 0) : ℚ))) := by
  intro s d resp h
  rw [get_target_voltage_eq, h]
  dsimp only
  split_ifs with ha
  · constructor
    · simp only [List.getD_eq_getElem?_getD] at ha
      simp [ha]
    · intro _; rfl
  · push_neg at ha
    constructor
    · simp only [List.getD_eq_getElem?_getD] at ha
      simp [ha]
    · intro hne; exact absurd ha hne

theorem target_voltage_spec_witness :
    ((STLink.get_target_voltage defaultSTLink
        (mkDev (okOracle [232, 3, 0, 0, 244, 1, 0, 0]))).1 =
      Except.ok ((6 : ℚ) / 5)) ∧
    0 < ((6 : ℚ) / 5) ∧
    ((STLink.get_target_voltage defaultSTLink
        (mkDev (okOracle [0, 0, 0, 0, 244, 1, 0, 0]))).1 =
      Except.error (Failure.err (DebugProbeError.ProbeSpecific
        StlinkError.VoltageDivisionByZero))) := by
  refine ⟨?_, by norm_num, ?_⟩
  · have h := (target_voltage_spec defaultSTLink
      (mkDev (okOracle [232, 3, 0, 0, 244, 1, 0, 0])) [232, 3, 0, 0, 244, 1, 0, 0] rfl).2
      (by decide)
    rw [h]
    norm_num [leWord4]
  · exact (target_voltage_spec defaultSTLink
      (mkDev (okOracle [0, 0, 0, 0, 244, 1, 0, 0])) [0, 0, 0, 0, 244, 1, 0, 0] rfl).1.mpr
      (by decide)

/-- C6: on the DebugPort, an address with a nonzero high nibble is rejected
with the blank-sub-bank error before any transport write and without touching
the driver state; an address with a zero high nibble goes straight to the
transfer command, succeeding whenever the status is ok. -/
theorem dp_blank_register_rejection : ∀ (addr value : Nat) (s : STLink) (d : Dev),
    (addr &&& 0xf0 ≠ 0 →
      STLink.read_register PortType.DebugPort addr s d =
        (Except.error (Failure.err (DebugProbeError.ProbeSpecific
          StlinkError.BlanksNotAllowedOnDPRegister)), s, d) ∧
      STLink.write_register PortType.DebugPort addr value s d =
        (Except.error (Failure.err (DebugProbeError.ProbeSpecific
          StlinkError.BlanksNotAllowedOnDPRegister)), s, d)) ∧
    (addr &&& 0xf0 = 0 →
      ((STLink.read_register PortType.DebugPort addr s d).2.1 = s ∧
       (STLink.read_register PortType.DebugPort addr s d).2.2.trace =
         d.trace ++ [DevEvent.write (readDapCmd PortType.DebugPort addr)] ∧
       (respOk (d.oracle d.count) = true →
         isOkE (STLink.read_register PortType.DebugPort addr s d).1 = true)) ∧
      ((STLink.write_register PortType.DebugPort addr value s d).2.1 = s ∧
       (STLink.write_register PortType.DebugPort addr value s d).2.2.trace =
         d.trace ++ [DevEvent.write (writeDapCmd PortType.DebugPort addr value)] ∧
       (respOk (d.oracle d.count) = true →
         STLink.write_register PortType.DebugPort addr value s d =
           (Except.ok (), s, dStep (writeDapCmd PortType.DebugPort addr value) d)))) := by
  intro addr value s d
  constructor
  · intro h
    exact ⟨rr_dp_blank addr s d h, wr_dp_blank addr value s d h⟩
  · intro h
    constructor
    · rw [rr_dp_zero addr s d h]
      rcases hor : d.oracle d.count with _ | resp
      · exact ⟨rfl, rfl, by intro ht; simp [respOk] at ht⟩
      · dsimp only
        rcases hcs : STLink.check_status resp with e | u
        · refine ⟨rfl, rfl, ?_⟩
          intro ht
          obtain hok := (respOk_true_iff resp).mp ht
          rw [hok] at hcs
          cases hcs
        · cases u
          exact ⟨rfl, rfl, fun _ => rfl⟩
    · rw [wr_dp_zero addr value s d h]
      rcases hor : d.oracle d.count with _ | resp
      · exact ⟨rfl, rfl, by intro ht; simp [respOk] at ht⟩
      · dsimp only
        rcases hcs : STLink.check_status resp with e | u
        · refine ⟨rfl, rfl, ?_⟩
          intro ht
          obtain hok := (respOk_true_iff resp).mp ht
          rw [hok] at hcs
          cases hcs
        · cases u
          exact ⟨rfl, rfl, fun _ => rfl⟩

theorem dp_blank_register_rejection_witness :
    STLink.read_register PortType.DebugPort 0x14 defaultSTLink
        (mkDev (okOracle [0x80, 0, 0, 0, 1, 2, 3, 4])) =
      (Except.error (Failure.err (DebugProbeError.ProbeSpecific
        StlinkError.BlanksNotAllowedOnDPRegister)), defaultSTLink,
       mkDev (okOracle [0x80, 0, 0, 0, 1, 2, 3, 4])) ∧
    isOkE (STLink.read_register PortType.DebugPort 4 defaultSTLink
        (mkDev (okOracle [0x80, 0, 0, 0, 1, 2, 3, 4]))).1 = true :=
  ⟨((dp_blank_register_rejection 0x14 0 defaultSTLink
      (mkDev (okOracle [0x80, 0, 0, 0, 1, 2, 3, 4]))).1 (by decide)).1,
   ((dp_blank_register_rejection 4 0 defaultSTLink
      (mkDev (okOracle [0x80, 0, 0, 0, 1, 2, 3, 4]))).2 (by decide)).1.2.2 (by decide)⟩

theorem foldl_max_mem (t : List Nat) : ∀ a : Nat, t.foldl max a = a ∨ t.foldl max a ∈ t := by
  induction t with
  | nil => intro a; exact Or.inl rfl
  | cons b t ih =>
    intro a
    rcases ih (max a b) with h | h
    · rcases max_choice a b with h2 | h2
      · rw [List.foldl_cons, h, h2]; exact Or.inl rfl
      · rw [List.foldl_cons, h, h2]; exact Or.inr (List.mem_cons_self b t)
    · exact Or.inr (List.mem_cons_of_mem b h)

theorem foldl_max_le (t : List Nat) :
    ∀ a : Nat, a ≤ t.foldl max a ∧ ∀ x ∈ t, x ≤ t.foldl max a := by
  induction t with
  | nil => simp
  | cons b t ih =>
    intro a
    obtain ⟨h1, h2⟩ := ih (max a b)
    refine ⟨?_, ?_⟩
    · rw [List.foldl_cons]
      exact le_trans (le_max_left a b) h1
    · intro x hx
      rw [List.foldl_cons]
      rcases List.mem_cons.mp hx with rfl | hx
      · exact le_trans (le_max_right a x) h1
      · exact h2 x hx

theorem max?_spec (l : List Nat) (b : Nat) (h : l.max? = some b) :
    b ∈ l ∧ ∀ x ∈ l, x ≤ b := by
  cases l with
  | nil => simp [List.max?] at h
  | cons a t =>
    have hb : t.foldl max a = b := by
      simpa [List.max?] using h
    subst hb
    constructor
    · rcases foldl_max_mem t a with h1 | h1
      · rw [h1]; exact List.mem_cons_self a t
      · exact List.mem_cons_of_mem a h1
    · intro x hx
      rcases List.mem_cons.mp hx with rfl | hx
      · exact (foldl_max_le t x).1
      · exact (foldl_max_le t a).2 x hx

theorem max?_none_iff_nil (l : List Nat) : l.max? = none ↔ l = [] := by
  cases l <;> simp [List.max?]

theorem check_status_error_shape (resp : List Nat) (e : DebugProbeError)
    (h : STLink.check_status resp = Except.error e) :
    ∃ st, e = DebugProbeError.ProbeSpecific (StlinkError.CommandFailed st) := by
  unfold STLink.check_status at h
  rcases hf : Status.fromU8 (resp.getD 0 0) with _ | st
  · rw [hf] at h
    exact ⟨Status.Unknown, (Except.error.inj h).symm⟩
  · rw [hf] at h
    dsimp only at h
    by_cases hst : st = Status.JtagOk
    · simp [hst] at h
    · rw [if_pos hst] at h
      exact ⟨st, (Except.error.inj h).symm⟩

/-- C7 counterexample: with hardware version 0 in SWD mode and a device that
answers the frequency-set command with a failure status, set_speed 1800 fails
with a command-failure error, so it neither returns a table entry nor fails
with the unsupported-speed error as the claim states. -/
theorem set_speed_pre_v3_claim_cex :
    (STLink.set_speed 1800 defaultSTLink (mkDev (okOracle [0x01]))).1 =
      Except.error (Failure.err (DebugProbeError.ProbeSpecific
        (StlinkError.CommandFailed Status.JtagUnknownError))) ∧
    ¬((∃ v, (STLink.set_speed 1800 defaultSTLink (mkDev (okOracle [0x01]))).1 = Except.ok v ∧
          v ∈ SwdFrequencyToDelayCount.table) ∨
      (STLink.set_speed 1800 defaultSTLink (mkDev (okOracle [0x01]))).1 =
        Except.error (Failure.err (DebugProbeError.UnsupportedSpeed 1800))) := by
  have h : (STLink.set_speed 1800 defaultSTLink (mkDev (okOracle [0x01]))).1 =
      Except.error (Failure.err (DebugProbeError.ProbeSpecific
        (StlinkError.CommandFailed Status.JtagUnknownError))) := rfl
  refine ⟨h, ?_⟩
  rintro (⟨v, hv, _⟩ | hu)
  · rw [h] at hv; simp at hv
  · rw [h] at hu; simp at hu

/-- C7 (amended): for hardware version below 3 every successful set_speed call
returns a speed that is an entry of the static table of the selected mode and
records it in that mode's current-speed field; set_speed fails with the
unsupported-speed error exactly when no table entry is at most the requested
speed (other failures propagate the device failure instead). -/
theorem set_speed_pre_v3_table : ∀ (speed_khz : Nat) (s : STLink) (d : Dev),
    s.hw_version < 3 →
    (∀ v, (STLink.set_speed speed_khz s d).1 = Except.ok v →
      v ∈ (match s.protocol with
           | WireProtocol.Swd => SwdFrequencyToDelayCount.table
           | WireProtocol.Jtag => JTagFrequencyToDivider.table) ∧
      (match s.protocol with
       | WireProtocol.Swd => (STLink.set_speed speed_khz s d).2.1.swd_speed_khz
       | WireProtocol.Jtag => (STLink.set_speed speed_khz s d).2.1.jtag_speed_khz) = v) ∧
    ((STLink.set_speed speed_khz s d).1 =
        Except.error (Failure.err (DebugProbeError.UnsupportedSpeed speed_khz)) ↔
      ((match s.protocol with
        | WireProtocol.Swd => SwdFrequencyToDelayCount.table
        | WireProtocol.Jtag => JTagFrequencyToDivider.table).filter
          (fun x => x ≤ speed_khz)) = []) := by
  intro k s d hhw
  unfold STLink.set_speed
  rw [if_pos hhw]
  rcases hp : s.protocol with _ | _
  · dsimp only
    rcases hfs : SwdFrequencyToDelayCount.find_setting k with _ | v
    · dsimp only
      refine ⟨?_, ?_, ?_⟩
      · intro v hv; simp at hv
      · intro _
        unfold SwdFrequencyToDelayCount.find_setting at hfs
        exact (max?_none_iff_nil _).mp hfs
      · intro _; rfl
    · dsimp only
      rw [set_swd_frequency_eq]
      dsimp only
      rcases hor : d.oracle d.count with _ | resp
      · dsimp only
        refine ⟨?_, ?_, ?_⟩
        · intro v' hv; simp at hv
        · intro habs; simp at habs
        · intro hnil
          unfold SwdFrequencyToDelayCount.find_setting at hfs
          rw [hnil] at hfs
          simp [List.max?] at hfs
      · dsimp only
        rcases hcs : STLink.check_status resp with e | u
        · dsimp only
          refine ⟨?_, ?_, ?_⟩
          · intro v' hv; simp at hv
          · intro habs
            obtain ⟨st, rfl⟩ := check_status_error_shape resp e hcs
            simp at habs
          · intro hnil
            unfold SwdFrequencyToDelayCount.find_setting at hfs
            rw [hnil] at hfs
            simp [List.max?] at hfs
        · cases u
          dsimp only
          refine ⟨?_, ?_, ?_⟩
          · intro v' hv
            have hvv : v = v' := by simpa using hv
            subst hvv
            unfold SwdFrequencyToDelayCount.find_setting at hfs
            exact ⟨List.mem_of_mem_filter (max?_spec _ _ hfs).1, rfl⟩
          · intro habs; simp at habs
          · intro hnil
            unfold SwdFrequencyToDelayCount.find_setting at hfs
            rw [hnil] at hfs
            simp [List.max?] at hfs
  · dsimp only
    rcases hfs : JTagFrequencyToDivider.find_setting k with _ | v
    · dsimp only
      refine ⟨?_, ?_, ?_⟩
      · intro v hv; simp at hv
      · intro _
        unfold JTagFrequencyToDivider.find_setting at hfs
        exact (max?_none_iff_nil _).mp hfs
      · intro _; rfl
    · dsimp only
      rw [set_jtag_frequency_eq]
      dsimp only
      rcases hor : d.oracle d.count with _ | resp
      · dsimp only
        refine ⟨?_, ?_, ?_⟩
        · intro v' hv; simp at hv
        · intro habs; simp at habs
        · intro hnil
          unfold JTagFrequencyToDivider.find_setting at hfs
          rw [hnil] at hfs
          simp [List.max?] at hfs
      · dsimp only
        rcases hcs : STLink.check_status resp with e | u
        · dsimp only
          refine ⟨?_, ?_, ?_⟩
          · intro v' hv; simp at hv
          · intro habs
            obtain ⟨st, rfl⟩ := check_status_error_shape resp e hcs
            simp at habs
          · intro hnil
            unfold JTagFrequencyToDivider.find_setting at hfs
            rw [hnil] at hfs
            simp [List.max?] at hfs
        · cases u
          dsimp only
          refine ⟨?_, ?_, ?_⟩
          · intro v' hv
            have hvv : v = v' := by simpa using hv
            subst hvv
            unfold JTagFrequencyToDivider.find_setting at hfs
            exact ⟨List.mem_of_mem_filter (max?_spec _ _ hfs).1, rfl⟩
          · intro habs; simp at habs
          · intro hnil
            unfold JTagFrequencyToDivider.find_setting at hfs
            rw [hnil] at hfs
            simp [List.max?] at hfs

theorem set_speed_pre_v3_table_witness :
    (1800 ∈ SwdFrequencyToDelayCount.table ∧
      (STLink.set_speed 2000 defaultSTLink (mkDev (okOracle [0x80]))).2.1.swd_speed_khz = 1800) ∧
    ((STLink.set_speed 10 { defaultSTLink with protocol := WireProtocol.Jtag }
        (mkDev (okOracle [0x80]))).1 =
      Except.error (Failure.err (DebugProbeError.UnsupportedSpeed 10))) := by
  constructor
  · have h := (set_speed_pre_v3_table 2000 defaultSTLink (mkDev (okOracle [0x80]))
      (by decide)).1 1800 rfl
    exact ⟨h.1, h.2⟩
  · exact (set_speed_pre_v3_table 10 { defaultSTLink with protocol := WireProtocol.Jtag }
      (mkDev (okOracle [0x80])) (by decide)).2.mpr (by decide)

/-- C4 counterexample: base version word 0x2000 gives hardware version 2 and
firmware version 0; get_version fails with the JTAG-unsupported error, but the
claim's second iff demands the firmware-outdated error there (hardware < 3 and
firmware 0 < 24), so the claim as stated is false. -/
theorem get_version_claim_cex :
    (STLink.get_version defaultSTLink
        (mkDev (fun k => if k = 0 then some [0x20, 0, 0, 0, 0, 0] else some []))).1 =
      Except.error (Failure.err DebugProbeError.JTAGNotSupportedOnProbe) ∧
    (STLink.get_version defaultSTLink
        (mkDev (fun k => if k = 0 then some [0x20, 0, 0, 0, 0, 0] else some []))).2.1.hw_version
        < 3 ∧
    (STLink.get_version defaultSTLink
        (mkDev (fun k => if k = 0 then some [0x20, 0, 0, 0, 0, 0] else some []))).2.1.jtag_version
        < 24 ∧
    ¬((STLink.get_version defaultSTLink
        (mkDev (fun k => if k = 0 then some [0x20, 0, 0, 0, 0, 0] else some []))).1 =
      Except.error (Failure.err DebugProbeError.ProbeFirmwareOutdated) ↔
      ((STLink.get_version defaultSTLink
          (mkDev (fun k => if k = 0 then some [0x20, 0, 0, 0, 0, 0] else some []))).2.1.hw_version
          < 3 ∧
       (STLink.get_version defaultSTLink
          (mkDev (fun k => if k = 0 then some [0x20, 0, 0, 0, 0, 0] else some []))).2.1.jtag_version
          < 24)) := by
  refine ⟨rfl, by decide, by decide, ?_⟩
  intro hiff
  have h2 := hiff.mpr ⟨by decide, by decide⟩
  have h1 : (STLink.get_version defaultSTLink
      (mkDev (fun k => if k = 0 then some [0x20, 0, 0, 0, 0, 0] else some []))).1 =
      Except.error (Failure.err DebugProbeError.JTAGNotSupportedOnProbe) := rfl
  rw [h1] at h2
  simp at h2

/-- C4 (amended): version negotiation parses the big-endian word (0x3190 gives
hardware 3, firmware field 6), overwrites the firmware version with byte 2 of
the extended response when hardware >= 3, fails with JTAG-unsupported iff the
final firmware version is 0, and fails with firmware-outdated iff hardware < 3
and 0 < firmware version < 24 (firmware 0 takes the JTAG-unsupported error). -/
theorem get_version_negotiation : ∀ (s : STLink) (d : Dev) (resp6 resp12 : List Nat),
    d.oracle d.count = some resp6 →
    d.oracle (d.count + 1) = some resp12 →
    (let w := resp6.getD 0 0 * 256 + resp6.getD 1 0
     let hw := (w >>> 12) % 256 &&& 0x0F
     let fw := if 3 ≤ hw then resp12.getD 2 0 else (w >>> 6) % 256 &&& 0x3F
     ((STLink.get_version s d).2.1.hw_version = hw ∧
      (STLink.get_version s d).2.1.jtag_version = fw) ∧
     ((STLink.get_version s d).1 =
        Except.error (Failure.err DebugProbeError.JTAGNotSupportedOnProbe) ↔ fw = 0) ∧
     ((STLink.get_version s d).1 =
        Except.error (Failure.err DebugProbeError.ProbeFirmwareOutdated) ↔
        hw < 3 ∧ fw < 24 ∧ fw ≠ 0) ∧
     ((0x3190 >>> 12) % 256 &&& 0x0F = 3 ∧ (0x3190 >>> 6) % 256 &&& 0x3F = 6)) := by
  intro s d resp6 resp12 h0 h1
  unfold STLink.get_version
  rw [devWrite_run, h0]
  dsimp only
  rw [padTo_getD 6 0 resp6 (by norm_num), padTo_getD 6 1 resp6 (by norm_num)]
  by_cases h3 : 3 ≤ ((resp6.getD 0 0 * 256 + resp6.getD 1 0) >>> 12) % 256 &&& 0x0F
  · rw [if_pos h3, if_pos h3]
    rw [devWrite_run, dStep_oracle, dStep_count, h1]
    dsimp only
    rw [padTo_getD 12 2 resp12 (by norm_num)]
    by_cases hz : resp12.getD 2 0 = 0
    · rw [if_pos hz]
      refine ⟨⟨rfl, rfl⟩, ?_, ?_, by decide, by decide⟩
      · exact ⟨fun _ => hz, fun _ => rfl⟩
      · constructor
        · intro habs; simp at habs
        · rintro ⟨ha, -, -⟩; omega
    · rw [if_neg hz, if_neg (by rintro ⟨ha, -⟩; omega)]
      refine ⟨⟨rfl, rfl⟩, ?_, ?_, by decide, by decide⟩
      · constructor
        · intro habs; simp at habs
        · intro hfz; exact absurd hfz hz
      · constructor
        · intro habs; simp at habs
        · rintro ⟨ha, -, -⟩; omega
  · rw [if_neg h3, if_neg h3]
    dsimp only
    by_cases hz : ((resp6.getD 0 0 * 256 + resp6.getD 1 0) >>> 6) % 256 &&& 0x3F = 0
    · rw [if_pos hz]
      refine ⟨⟨rfl, rfl⟩, ?_, ?_, by decide, by decide⟩
      · exact ⟨fun _ => hz, fun _ => rfl⟩
      · constructor
        · intro habs; simp at habs
        · rintro ⟨-, -, hfz⟩; exact absurd hz hfz
    · rw [if_neg hz]
      by_cases h24 : ((resp6.getD 0 0 * 256 + resp6.getD 1 0) >>> 6) % 256 &&& 0x3F < 24
      · rw [if_pos ⟨by omega, h24⟩]
        refine ⟨⟨rfl, rfl⟩, ?_, ?_, by decide, by decide⟩
        · constructor
          · intro habs; simp at habs
          · intro hfz; exact absurd hfz hz
        · constructor
          · intro _; exact ⟨by omega, h24, hz⟩
          · intro _; rfl
      · rw [if_neg (by rintro ⟨-, hb⟩; exact h24 hb)]
        refine ⟨⟨rfl, rfl⟩, ?_, ?_, by decide, by decide⟩
        · constructor
          · intro habs; simp at habs
          · intro hfz; exact absurd hfz hz
        · constructor
          · intro habs; simp at habs
          · rintro ⟨-, hb, -⟩; omega

theorem get_version_negotiation_witness :
    (STLink.get_version defaultSTLink
        (mkDev (fun k => if k = 0 then some [0x31, 0x90, 0, 0, 0, 0]
                         else some [9, 9, 30, 9, 9, 9, 9, 9, 9, 9, 9, 9]))).2.1.hw_version = 3 ∧
    (STLink.get_version defaultSTLink
        (mkDev (fun k => if k = 0 then some [0x31, 0x90, 0, 0, 0, 0]
                         else some [9, 9, 30, 9, 9, 9, 9, 9, 9, 9, 9, 9]))).2.1.jtag_version = 30 ∧
    (0x3190 >>> 12) % 256 &&& 0x0F = 3 ∧ (0x3190 >>> 6) % 256 &&& 0x3F = 6 := by
  have h := get_version_negotiation defaultSTLink
    (mkDev (fun k => if k = 0 then some [0x31, 0x90, 0, 0, 0, 0]
                     else some [9, 9, 30, 9, 9, 9, 9, 9, 9, 9, 9, 9]))
    [0x31, 0x90, 0, 0, 0, 0] [9, 9, 30, 9, 9, 9, 9, 9, 9, 9, 9, 9] rfl rfl
  exact ⟨h.1.1, h.1.2, h.2.2.2⟩

/-- C3: for a hardware-version-3 driver, the 52-byte frequency-list response is
parsed as 13 little-endian words with word 1 the current frequency and word 2
the count capped at 10, the available list being the words rotated left by 3
and truncated to the count; set_speed picks the maximum available frequency not
exceeding the request, issues the set-communication-frequency command with it,
and fails with the unsupported-speed error exactly when no available frequency
is at most the request. -/
theorem set_speed_v3_frequency_selection :
    ∀ (speed_khz : Nat) (s : STLink) (d : Dev) (resp : List Nat),
    s.hw_version = 3 →
    d.oracle d.count = some resp →
    STLink.check_status resp = Except.ok () →
    respOk (d.oracle (d.count + 1)) = true →
    (let cp : Nat := match s.protocol with
       | WireProtocol.Swd => 0
       | WireProtocol.Jtag => 1
     let values := leWords (padTo 52 resp)
     let avail := (values.drop 3 ++ values.take 3).take (min (values.getD 2 0) 10)
     STLink.get_communication_frequencies s.protocol s d =
       (Except.ok (avail, values.getD 1 0), s, dStep (getComFreqCmd cp) d) ∧
     ((avail.filter (fun v => v ≤ speed_khz)) = [] →
       STLink.set_speed speed_khz s d =
         (Except.error (Failure.err (DebugProbeError.UnsupportedSpeed speed_khz)), s,
          dStep (getComFreqCmd cp) d)) ∧
     ((STLink.set_speed speed_khz s d).1 =
        Except.error (Failure.err (DebugProbeError.UnsupportedSpeed speed_khz)) ↔
       (avail.filter (fun v => v ≤ speed_khz)) = []) ∧
     (∀ b, (avail.filter (fun v => v ≤ speed_khz)).max? = some b →
       (STLink.set_speed speed_khz s d).1 = Except.ok b ∧
       b ∈ avail ∧ b ≤ speed_khz ∧ (∀ x ∈ avail, x ≤ speed_khz → x ≤ b) ∧
       (STLink.set_speed speed_khz s d).2.2 =
         dStep (setComFreqCmd cp b) (dStep (getComFreqCmd cp) d) ∧
       (match s.protocol with
        | WireProtocol.Swd => (STLink.set_speed speed_khz s d).2.1.swd_speed_khz
        | WireProtocol.Jtag => (STLink.set_speed speed_khz s d).2.1.jtag_speed_khz) = b)) := by
  intro k s d resp h3 h0 hcs hr2
  dsimp only
  have hgcf : STLink.get_communication_frequencies s.protocol s d =
      (Except.ok (((leWords (padTo 52 resp)).drop 3 ++ (leWords (padTo 52 resp)).take 3).take
          (min ((leWords (padTo 52 resp)).getD 2 0) 10), (leWords (padTo 52 resp)).getD 1 0),
       s, dStep (getComFreqCmd (match s.protocol with
         | WireProtocol.Swd => 0
         | WireProtocol.Jtag => 1)) d) := by
    rw [get_communication_frequencies_eq s.protocol s d h3]
    dsimp only
    rw [h0]
    dsimp only
    rw [hcs]
  refine ⟨hgcf, ?_⟩
  unfold STLink.set_speed
  rw [if_neg (by omega), if_pos h3, hgcf]
  dsimp only
  rcases hmax : ((((leWords (padTo 52 resp)).drop 3 ++ (leWords (padTo 52 resp)).take 3).take
      (min ((leWords (padTo 52 resp)).getD 2 0) 10)).filter (fun v => v ≤ k)).max? with _ | b
  · have hnil := (max?_none_iff_nil _).mp hmax
    refine ⟨fun _ => rfl, ?_, ?_⟩
    · exact ⟨fun _ => hnil, fun _ => rfl⟩
    · intro b hb
      simp at hb
  · dsimp only
    rcases hor2 : d.oracle (d.count + 1) with _ | resp2
    · rw [hor2] at hr2; simp [respOk] at hr2
    · rw [hor2] at hr2
      have hok := (respOk_true_iff resp2).mp hr2
      rw [set_communication_frequency_eq s.protocol b s _ h3]
      dsimp only
      rw [dStep_oracle, dStep_count, hor2]
      dsimp only
      rw [hok]
      dsimp only
      have hmem := max?_spec _ _ hmax
      have hbavail := List.mem_of_mem_filter hmem.1
      have hble : b ≤ k := by
        have := List.of_mem_filter hmem.1
        simpa using this
      refine ⟨?_, ?_, ?_⟩
      · intro hnil
        rw [hnil] at hmax
        simp [List.max?] at hmax
      · constructor
        · intro habs
          rcases hp : s.protocol with _ | _ <;> rw [hp] at habs <;> simp at habs
        · intro hnil
          rw [hnil] at hmax
          simp [List.max?] at hmax
      · intro b' hb'
        have hbb : b = b' := by simpa using hb'
        subst hbb
        rcases hp : s.protocol with _ | _ <;> dsimp only <;>
          exact ⟨rfl, hbavail, hble,
            fun x hx hxk => hmem.2 x (List.mem_filter.mpr ⟨hx, by simpa using hxk⟩),
            rfl, rfl⟩

theorem set_speed_v3_frequency_selection_witness :
    (STLink.set_speed 5000 { defaultSTLink with hw_version := 3 }
        (mkDev (fun j => if j = 0
          then some ([0x80, 0, 0, 0] ++ le4 4000 ++ le4 3 ++ le4 8000 ++ le4 4000 ++ le4 1000)
          else some [0x80]))).1 = Except.ok 4000 ∧
    (STLink.set_speed 5000 { defaultSTLink with hw_version := 3 }
        (mkDev (fun j => if j = 0
          then some ([0x80, 0, 0, 0] ++ le4 4000 ++ le4 3 ++ le4 8000 ++ le4 4000 ++ le4 1000)
          else some [0x80]))).2.1.swd_speed_khz = 4000 := by
  have h := (set_speed_v3_frequency_selection 5000 { defaultSTLink with hw_version := 3 }
    (mkDev (fun j => if j = 0
      then some ([0x80, 0, 0, 0] ++ le4 4000 ++ le4 3 ++ le4 8000 ++ le4 4000 ++ le4 1000)
      else some [0x80]))
    ([0x80, 0, 0, 0] ++ le4 4000 ++ le4 3 ++ le4 8000 ++ le4 4000 ++ le4 1000)
    rfl rfl ((check_status_ok_iff _).mpr (by decide)) (by decide)).2.2.2 4000 (by decide)
  exact ⟨h.1, h.2.2.2.2.2⟩

theorem fieldsEq_refl (s : STLink) : fieldsEq s s := ⟨rfl, rfl, rfl, rfl, rfl⟩

theorem open_ap_state (a : Nat) (s : STLink) (d : Dev) : (STLink.open_ap a s d).2.1 = s := by
  unfold STLink.open_ap
  split
  · rfl
  · rw [devWrite_run]
    rcases hor : d.oracle d.count with _ | resp
    · rfl
    · dsimp only
      rcases hcs : STLink.check_status (padTo 2 resp) with e | u <;> rfl

theorem close_ap_state (a : Nat) (s : STLink) (d : Dev) : (STLink.close_ap a s d).2.1 = s := by
  unfold STLink.close_ap
  split
  · rfl
  · rw [devWrite_run]
    rcases hor : d.oracle d.count with _ | resp
    · rfl
    · dsimp only
      rcases hcs : STLink.check_status (padTo 2 resp) with e | u <;> rfl

theorem ap_switch_ok_cache (n : Nat) (s s1 : STLink) (d d1 : Dev)
    (h : STLink.ap_switch (PortType.AccessPort n) s d = (Except.ok (), s1, d1)) :
    s1.current_ap = some n := by
  unfold STLink.ap_switch at h
  dsimp only at h
  rcases hc : s.current_ap with _ | m <;> rw [hc] at h <;> dsimp only at h
  · rcases ho : STLink.open_ap (n % 256) s d with ⟨r, s2, d2⟩
    rw [ho] at h
    rcases r with f | u
    · simp at h
    · dsimp only at h
      have h2 : some n = s1.current_ap := by
        simpa using congrArg (fun t => t.2.1.current_ap) h
      exact h2.symm
  · by_cases hmn : m ≠ n
    · rw [if_pos hmn] at h
      rcases hcl : STLink.close_ap (m % 256) s d with ⟨rc, sc, dc⟩
      rw [hcl] at h
      rcases rc with f | u
      · simp at h
      · dsimp only at h
        rcases ho : STLink.open_ap (n % 256) sc dc with ⟨ro, so, d2⟩
        rw [ho] at h
        rcases ro with f | u2
        · simp at h
        · dsimp only at h
          have h2 : some n = s1.current_ap := by
            simpa using congrArg (fun t => t.2.1.current_ap) h
          exact h2.symm
    · rw [if_neg hmn] at h
      have h2 : some n = s1.current_ap := by
        simpa using congrArg (fun t => t.2.1.current_ap) h
      exact h2.symm

theorem ap_switch_fields (port : PortType) (s : STLink) (d : Dev) :
    fieldsEq (STLink.ap_switch port s d).2.1 s := by
  unfold STLink.ap_switch
  rcases port with _ | n
  · exact fieldsEq_refl s
  · dsimp only
    rcases hc : s.current_ap with _ | m <;> dsimp only
    · rcases ho : STLink.open_ap (n % 256) s d with ⟨r, s2, d2⟩
      have hs2 : s2 = s := by
        have := open_ap_state (n % 256) s d
        rw [ho] at this
        exact this
      rcases r with f | u <;> dsimp only <;> subst hs2
      · exact fieldsEq_refl s2
      · exact ⟨rfl, rfl, rfl, rfl, rfl⟩
    · by_cases hmn : m ≠ n
      · rw [if_pos hmn]
        rcases hcl : STLink.close_ap (m % 256) s d with ⟨rc, sc, dc⟩
        have hsc : sc = s := by
          have := close_ap_state (m % 256) s d
          rw [hcl] at this
          exact this
        rcases rc with f | u <;> dsimp only
        · subst hsc; exact fieldsEq_refl sc
        · rcases ho : STLink.open_ap (n % 256) sc dc with ⟨ro, so, d2⟩
          have hso : so = sc := by
            have := open_ap_state (n % 256) sc dc
            rw [ho] at this
            exact this
          rcases ro with f | u2 <;> dsimp only <;> subst hso <;> subst hsc
          · exact fieldsEq_refl so
          · exact ⟨rfl, rfl, rfl, rfl, rfl⟩
      · rw [if_neg hmn]
        exact ⟨rfl, rfl, rfl, rfl, rfl⟩

theorem rr_fields (port : PortType) (addr : Nat) (s : STLink) (d : Dev) :
    fieldsEq (STLink.read_register port addr s d).2.1 s := by
  unfold STLink.read_register
  split
  · rcases hsw : STLink.ap_switch port s d with ⟨r, s1, d1⟩
    have hf : fieldsEq s1 s := by
      have := ap_switch_fields port s d
      rw [hsw] at this
      exact this
    rcases r with f | u <;> dsimp only
    · exact hf
    · rw [devWrite_run]
      rcases hor : d1.oracle d1.count with _ | resp
      · exact hf
      · dsimp only
        rcases hcs : STLink.check_status (padTo 8 resp) with e | u2 <;> exact hf
  · exact fieldsEq_refl s

theorem wr_fields (port : PortType) (addr value : Nat) (s : STLink) (d : Dev) :
    fieldsEq (STLink.write_register port addr value s d).2.1 s := by
  unfold STLink.write_register
  split
  · rcases hsw : STLink.ap_switch port s d with ⟨r, s1, d1⟩
    have hf : fieldsEq s1 s := by
      have := ap_switch_fields port s d
      rw [hsw] at this
      exact this
    rcases r with f | u <;> dsimp only
    · exact hf
    · rw [devWrite_run]
      rcases hor : d1.oracle d1.count with _ | resp
      · exact hf
      · dsimp only
        rcases hcs : STLink.check_status (padTo 2 resp) with e | u2 <;> exact hf
  · exact fieldsEq_refl s

theorem rr_state_cache (n addr : Nat) (s : STLink) (d : Dev)
    (h : isOkE (STLink.read_register (PortType.AccessPort n) addr s d).1 = true) :
    (STLink.read_register (PortType.AccessPort n) addr s d).2.1.current_ap = some n := by
  unfold STLink.read_register at h ⊢
  rw [if_pos (Or.inr (by simp))] at h ⊢
  rcases hsw : STLink.ap_switch (PortType.AccessPort n) s d with ⟨r, s1, d1⟩
  rw [hsw] at h
  rcases r with f | u
  · simp [isOkE] at h
  · cases u
    have hcache := ap_switch_ok_cache n s s1 d d1 hsw
    dsimp only
    rw [devWrite_run]
    rcases hor : d1.oracle d1.count with _ | resp
    · exact hcache
    · dsimp only
      rcases hcs : STLink.check_status (padTo 8 resp) with e | u2 <;> exact hcache

theorem wr_state_cache (n addr value : Nat) (s : STLink) (d : Dev)
    (h : isOkE (STLink.write_register (PortType.AccessPort n) addr value s d).1 = true) :
    (STLink.write_register (PortType.AccessPort n) addr value s d).2.1.current_ap = some n := by
  unfold STLink.write_register at h ⊢
  rw [if_pos (Or.inr (by simp))] at h ⊢
  rcases hsw : STLink.ap_switch (PortType.AccessPort n) s d with ⟨r, s1, d1⟩
  rw [hsw] at h
  rcases r with f | u
  · simp [isOkE] at h
  · cases u
    have hcache := ap_switch_ok_cache n s s1 d d1 hsw
    dsimp only
    rw [devWrite_run]
    rcases hor : d1.oracle d1.count with _ | resp
    · exact hcache
    · dsimp only
      rcases hcs : STLink.check_status (padTo 2 resp) with e | u2 <;> exact hcache

theorem runCall_rd_proj (p : PortType) (a : Nat) (s : STLink) (d : Dev) :
    (runCall (DapCall.rd p a) s d).2 = (STLink.read_register p a s d).2 ∧
    isOkE (runCall (DapCall.rd p a) s d).1 = isOkE (STLink.read_register p a s d).1 := by
  unfold runCall
  dsimp only
  rcases hr : STLink.read_register p a s d with ⟨r, s1, d1⟩
  rcases r with f | v <;> exact ⟨rfl, rfl⟩

theorem runCall_rd_err (p : PortType) (a : Nat) (s : STLink) (d : Dev) (f : Failure)
    (s1 : STLink) (d1 : Dev) (h : STLink.read_register p a s d = (Except.error f, s1, d1)) :
    runCall (DapCall.rd p a) s d = (Except.error f, s1, d1) := by
  unfold runCall
  dsimp only
  rw [h]

theorem runCall_rd_ok (p : PortType) (a : Nat) (s : STLink) (d : Dev) (v : Nat)
    (s1 : STLink) (d1 : Dev) (h : STLink.read_register p a s d = (Except.ok v, s1, d1)) :
    runCall (DapCall.rd p a) s d = (Except.ok (), s1, d1) := by
  unfold runCall
  dsimp only
  rw [h]

theorem runCall_wr (p : PortType) (a v : Nat) (s : STLink) (d : Dev) :
    runCall (DapCall.wr p a v) s d = STLink.write_register p a v s d := rfl

theorem apOf_cases (c : DapCall) (n : Nat) (h : apOf c = some n) :
    (∃ a, c = DapCall.rd (PortType.AccessPort n) a) ∨
    (∃ a v, c = DapCall.wr (PortType.AccessPort n) a v) := by
  rcases c with ⟨p, a⟩ | ⟨p, a, v⟩
  · rcases p with _ | m
    · simp [apOf] at h
    · simp [apOf] at h
      subst h
      exact Or.inl ⟨a, rfl⟩
  · rcases p with _ | m
    · simp [apOf] at h
    · simp [apOf] at h
      subst h
      exact Or.inr ⟨a, v, rfl⟩

/-- C2: for register accesses on Access Ports, a call for AP n right after a
successful call for AP m with m different from n issues exactly one close(m)
command, then one open(n) command, then the transfer command; a consecutive
call for the same AP issues only the transfer command; the cached AP becomes
Some(n) only after the open of n succeeds (on a close or open failure the
cache and the rest of the driver state are untouched); a successful call from
an empty cache implies the multi-AP precondition held, and register calls
never change the version, protocol or speed fields. -/
theorem ap_cache_switching :
    (∀ c m s d, apOf c = some m → isOkE (runCall c s d).1 = true →
      (runCall c s d).2.1.current_ap = some m) ∧
    (∀ c n s d, apOf c = some n → s.current_ap = some n →
      (runCall c s d).2.1 = s ∧
      (runCall c s d).2.2.trace = d.trace ++ [DevEvent.write (transferCmd c)]) ∧
    (∀ c n m s d, apOf c = some n → s.current_ap = some m → m ≠ n → multiApOk s →
      ((respOk (d.oracle d.count) = false →
        isOkE (runCall c s d).1 = false ∧ (runCall c s d).2.1 = s ∧
        (runCall c s d).2.2.trace = d.trace ++ [DevEvent.write (closeApCmd (m % 256))]) ∧
      (respOk (d.oracle d.count) = true → respOk (d.oracle (d.count + 1)) = false →
        isOkE (runCall c s d).1 = false ∧ (runCall c s d).2.1 = s ∧
        (runCall c s d).2.2.trace = d.trace ++
          [DevEvent.write (closeApCmd (m % 256)), DevEvent.write (openApCmd (n % 256))]) ∧
      (respOk (d.oracle d.count) = true → respOk (d.oracle (d.count + 1)) = true →
        (runCall c s d).2.1 = { s with current_ap := some n } ∧
        (runCall c s d).2.2.trace = d.trace ++
          [DevEvent.write (closeApCmd (m % 256)), DevEvent.write (openApCmd (n % 256)),
           DevEvent.write (transferCmd c)]))) ∧
    (∀ c n s d, apOf c = some n → s.current_ap = none → multiApOk s →
      ((respOk (d.oracle d.count) = false →
        isOkE (runCall c s d).1 = false ∧ (runCall c s d).2.1 = s ∧
        (runCall c s d).2.2.trace = d.trace ++ [DevEvent.write (openApCmd (n % 256))]) ∧
      (respOk (d.oracle d.count) = true →
        (runCall c s d).2.1 = { s with current_ap := some n } ∧
        (runCall c s d).2.2.trace = d.trace ++
          [DevEvent.write (openApCmd (n % 256)), DevEvent.write (transferCmd c)]))) ∧
    (∀ c n s d, apOf c = some n → s.current_ap = none →
      isOkE (runCall c s d).1 = true → multiApOk s) ∧
    (∀ c s d, fieldsEq (runCall c s d).2.1 s) := by
  refine ⟨?_, ?_, ?_, ?_, ?_, ?_⟩
  · intro c m s d hap hok
    rcases apOf_cases c m hap with ⟨a, rfl⟩ | ⟨a, v, rfl⟩
    · have hproj := runCall_rd_proj (PortType.AccessPort m) a s d
      rw [hproj.2] at hok
      have h21 : (runCall (DapCall.rd (PortType.AccessPort m) a) s d).2.1 =
          (STLink.read_register (PortType.AccessPort m) a s d).2.1 :=
        congrArg Prod.fst hproj.1
      rw [h21]
      exact rr_state_cache m a s d hok
    · rw [runCall_wr] at hok ⊢
      exact wr_state_cache m a v s d hok
  · intro c n s d hap hcur
    rcases apOf_cases c n hap with ⟨a, rfl⟩ | ⟨a, v, rfl⟩
    · have hsw := ap_switch_same n s d hcur
      have hro := rr_switch_ok n a s d s d hsw
      cases hr : respOk (d.oracle d.count) with
      | true =>
        obtain ⟨w, heq⟩ := hro.1 hr
        rw [runCall_rd_ok _ _ _ _ _ _ _ heq]
        exact ⟨rfl, rfl⟩
      | false =>
        obtain ⟨f, heq⟩ := hro.2 hr
        rw [runCall_rd_err _ _ _ _ _ _ _ heq]
        exact ⟨rfl, rfl⟩
    · rw [runCall_wr]
      have hsw := ap_switch_same n s d hcur
      have hro := wr_switch_ok n a v s d s d hsw
      cases hr : respOk (d.oracle d.count) with
      | true =>
        rw [hro.1 hr]
        exact ⟨rfl, rfl⟩
      | false =>
        obtain ⟨f, heq⟩ := hro.2 hr
        rw [heq]
        exact ⟨rfl, rfl⟩
  · intro c n m s d hap hcur hmn hg
    rcases apOf_cases c n hap with ⟨a, rfl⟩ | ⟨a, v, rfl⟩
    · refine ⟨?_, ?_, ?_⟩
      · intro hr0
        obtain ⟨f, hsw⟩ := ap_switch_close_fail m n s d hcur hmn hg hr0
        rw [runCall_rd_err _ _ _ _ _ _ _ (rr_switch_err n a s d f _ _ hsw)]
        exact ⟨rfl, rfl, rfl⟩
      · intro hr0 hr1
        obtain ⟨f, hsw⟩ := ap_switch_open_fail m n s d hcur hmn hg hr0 hr1
        rw [runCall_rd_err _ _ _ _ _ _ _ (rr_switch_err n a s d f _ _ hsw)]
        exact ⟨rfl, rfl, by simp [dStep, transferCmd]⟩
      · intro hr0 hr1
        have hsw := ap_switch_switch_ok m n s d hcur hmn hg hr0 hr1
        have hro := rr_switch_ok n a s d _ _ hsw
        cases hr2 : respOk ((dStep (openApCmd (n % 256)) (dStep (closeApCmd (m % 256)) d)).oracle
            ((dStep (openApCmd (n % 256)) (dStep (closeApCmd (m % 256)) d)).count)) with
        | true =>
          obtain ⟨w, heq⟩ := hro.1 hr2
          rw [runCall_rd_ok _ _ _ _ _ _ _ heq]
          exact ⟨rfl, by simp [dStep, transferCmd]⟩
        | false =>
          obtain ⟨f, heq⟩ := hro.2 hr2
          rw [runCall_rd_err _ _ _ _ _ _ _ heq]
          exact ⟨rfl, by simp [dStep, transferCmd]⟩
    · rw [runCall_wr]
      refine ⟨?_, ?_, ?_⟩
      · intro hr0
        obtain ⟨f, hsw⟩ := ap_switch_close_fail m n s d hcur hmn hg hr0
        rw [wr_switch_err n a v s d f _ _ hsw]
        exact ⟨rfl, rfl, rfl⟩
      · intro hr0 hr1
        obtain ⟨f, hsw⟩ := ap_switch_open_fail m n s d hcur hmn hg hr0 hr1
        rw [wr_switch_err n a v s d f _ _ hsw]
        exact ⟨rfl, rfl, by simp [dStep, transferCmd]⟩
      · intro hr0 hr1
        have hsw := ap_switch_switch_ok m n s d hcur hmn hg hr0 hr1
        have hro := wr_switch_ok n a v s d _ _ hsw
        cases hr2 : respOk ((dStep (openApCmd (n % 256)) (dStep (closeApCmd (m % 256)) d)).oracle
            ((dStep (openApCmd (n % 256)) (dStep (closeApCmd (m % 256)) d)).count)) with
        | true =>
          rw [hro.1 hr2]
          exact ⟨rfl, by simp [dStep, transferCmd]⟩
        | false =>
          obtain ⟨f, heq⟩ := hro.2 hr2
          rw [heq]
          exact ⟨rfl, by simp [dStep, transferCmd]⟩
  · intro c n s d hap hnone hg
    rcases apOf_cases c n hap with ⟨a, rfl⟩ | ⟨a, v, rfl⟩
    · refine ⟨?_, ?_⟩
      · intro hr0
        obtain ⟨f, hsw⟩ := ap_switch_none_fail n s d hnone hg hr0
        rw [runCall_rd_err _ _ _ _ _ _ _ (rr_switch_err n a s d f _ _ hsw)]
        exact ⟨rfl, rfl, rfl⟩
      · intro hr0
        have hsw := ap_switch_none_ok n s d hnone hg hr0
        have hro := rr_switch_ok n a s d _ _ hsw
        cases hr2 : respOk ((dStep (openApCmd (n % 256)) d).oracle
            ((dStep (openApCmd (n % 256)) d).count)) with
        | true =>
          obtain ⟨w, heq⟩ := hro.1 hr2
          rw [runCall_rd_ok _ _ _ _ _ _ _ heq]
          exact ⟨rfl, by simp [dStep, transferCmd]⟩
        | false =>
          obtain ⟨f, heq⟩ := hro.2 hr2
          rw [runCall_rd_err _ _ _ _ _ _ _ heq]
          exact ⟨rfl, by simp [dStep, transferCmd]⟩
    · rw [runCall_wr]
      refine ⟨?_, ?_⟩
      · intro hr0
        obtain ⟨f, hsw⟩ := ap_switch_none_fail n s d hnone hg hr0
        rw [wr_switch_err n a v s d f _ _ hsw]
        exact ⟨rfl, rfl, rfl⟩
      · intro hr0
        have hsw := ap_switch_none_ok n s d hnone hg hr0
        have hro := wr_switch_ok n a v s d _ _ hsw
        cases hr2 : respOk ((dStep (openApCmd (n % 256)) d).oracle
            ((dStep (openApCmd (n % 256)) d).count)) with
        | true =>
          rw [hro.1 hr2]
          exact ⟨rfl, by simp [dStep, transferCmd]⟩
        | false =>
          obtain ⟨f, heq⟩ := hro.2 hr2
          rw [heq]
          exact ⟨rfl, by simp [dStep, transferCmd]⟩
  · intro c n s d hap hnone hok
    by_contra hg
    rcases apOf_cases c n hap with ⟨a, rfl⟩ | ⟨a, v, rfl⟩
    · have hsw := ap_switch_none_guard n s d hnone hg
      rw [runCall_rd_err _ _ _ _ _ _ _ (rr_switch_err n a s d _ _ _ hsw)] at hok
      simp [isOkE] at hok
    · rw [runCall_wr] at hok
      have hsw := ap_switch_none_guard n s d hnone hg
      rw [wr_switch_err n a v s d _ _ _ hsw] at hok
      simp [isOkE] at hok
  · intro c s d
    rcases c with ⟨p, a⟩ | ⟨p, a, v⟩
    · have h21 : (runCall (DapCall.rd p a) s d).2.1 =
          (STLink.read_register p a s d).2.1 :=
        congrArg Prod.fst (runCall_rd_proj p a s d).1
      rw [h21]
      exact rr_fields p a s d
    · rw [runCall_wr]
      exact wr_fields p a v s d

theorem ap_cache_switching_witness :
    (runCall (DapCall.rd (PortType.AccessPort 1) 4)
        { defaultSTLink with hw_version := 3, jtag_version := 5, current_ap := some 0 }
        (mkDev (okOracle [0x80, 0, 0, 0, 1, 2, 3, 4]))).2.1.current_ap = some 1 ∧
    (runCall (DapCall.rd (PortType.AccessPort 1) 4)
        { defaultSTLink with hw_version := 3, jtag_version := 5, current_ap := some 0 }
        (mkDev (okOracle [0x80, 0, 0, 0, 1, 2, 3, 4]))).2.2.trace =
      [DevEvent.write (closeApCmd 0), DevEvent.write (openApCmd 1),
       DevEvent.write (readDapCmd (PortType.AccessPort 1) 4)] := by
  have h := (ap_cache_switching.2.2.1 (DapCall.rd (PortType.AccessPort 1) 4) 1 0
    { defaultSTLink with hw_version := 3, jtag_version := 5, current_ap := some 0 }
    (mkDev (okOracle [0x80, 0, 0, 0, 1, 2, 3, 4])) rfl rfl (by decide) (by decide)).2.2
    (by decide) (by decide)
  constructor
  · rw [h.1]
  · rw [h.2]
    rfl

theorem gcm_state (s : STLink) (d : Dev) : (STLink.get_current_mode s d).2.1 = s := by
  rw [get_current_mode_eq]
  rcases hor : d.oracle d.count with _ | resp
  · rfl
  · dsimp only
    rcases hb : resp.getD 0 0 with _ | _ | _ | _ | b <;> rfl

theorem gtv_state (s : STLink) (d : Dev) : (STLink.get_target_voltage s d).2.1 = s := by
  rw [get_target_voltage_eq]
  rcases hor : d.oracle d.count with _ | resp
  · rfl
  · dsimp only
    split <;> rfl

theorem gcf_state (p : WireProtocol) (s : STLink) (d : Dev) :
    (STLink.get_communication_frequencies p s d).2.1 = s := by
  unfold STLink.get_communication_frequencies
  split
  · dsimp only
    rw [devWrite_run]
    rcases hor : d.oracle d.count with _ | resp
    · rfl
    · dsimp only
      rcases hcs : STLink.check_status (padTo 52 resp) with e | u <;> rfl
  · rfl

theorem enter_idle_state (s : STLink) (d : Dev) : (STLink.enter_idle s d).2.1 = s := by
  unfold STLink.enter_idle
  rcases hgc : STLink.get_current_mode s d with ⟨r, s1, d1⟩
  have hs1 : s1 = s := by
    have := gcm_state s d
    rw [hgc] at this
    exact this
  rcases r with f | mode
  · exact hs1
  · rcases mode with _ | _ | _ | _ <;> dsimp only
    · rw [devWrite_run]
      rcases hor : d1.oracle d1.count with _ | resp <;> exact hs1
    · exact hs1
    · exact hs1
    · rw [devWrite_run]
      rcases hor : d1.oracle d1.count with _ | resp <;> exact hs1

theorem gv_fields (s : STLink) (d : Dev) :
    (STLink.get_version s d).2.1.protocol = s.protocol ∧
    (STLink.get_version s d).2.1.swd_speed_khz = s.swd_speed_khz ∧
    (STLink.get_version s d).2.1.jtag_speed_khz = s.jtag_speed_khz ∧
    (STLink.get_version s d).2.1.current_ap = s.current_ap := by
  unfold STLink.get_version
  rw [devWrite_run]
  rcases hor : d.oracle d.count with _ | resp
  · exact ⟨rfl, rfl, rfl, rfl⟩
  · dsimp only
    by_cases h3 : 3 ≤ ((padTo 6 resp).getD 0 0 * 256 + (padTo 6 resp).getD 1 0) >>> 12 % 256 &&& 0x0F
    · rw [if_pos h3]
      rw [devWrite_run, dStep_oracle, dStep_count]
      rcases hor2 : d.oracle (d.count + 1) with _ | resp2
      · exact ⟨rfl, rfl, rfl, rfl⟩
      · dsimp only
        repeat' split
        all_goals exact ⟨rfl, rfl, rfl, rfl⟩
    · rw [if_neg h3]
      dsimp only
      repeat' split
      all_goals exact ⟨rfl, rfl, rfl, rfl⟩

theorem init_rest_state_fields (s : STLink) (d : Dev) :
    (STLink.init_rest s d).2.1.protocol = s.protocol ∧
    (STLink.init_rest s d).2.1.current_ap = s.current_ap ∧
    ((STLink.init_rest s d).2.1.hw_version < 3 →
      (STLink.init_rest s d).2.1.swd_speed_khz = s.swd_speed_khz ∧
      (STLink.init_rest s d).2.1.jtag_speed_khz = s.jtag_speed_khz) := by
  unfold STLink.init_rest
  rcases hgv : STLink.get_version s d with ⟨rv, s1, d1⟩
  have hf := gv_fields s d
  rw [hgv] at hf
  dsimp only at hf
  rcases rv with f | vv
  · exact ⟨hf.1, hf.2.2.2, fun _ => ⟨hf.2.1, hf.2.2.1⟩⟩
  · dsimp only
    by_cases h3 : s1.hw_version = 3
    · rw [if_pos h3]
      rcases hg1 : STLink.get_communication_frequencies WireProtocol.Swd s1 d1 with ⟨rg1, s2, d2⟩
      have hs2 : s2 = s1 := by
        have := gcf_state WireProtocol.Swd s1 d1
        rw [hg1] at this
        exact this
      subst hs2
      rcases rg1 with f | pr1
      · dsimp only
        exact ⟨hf.1, hf.2.2.2, fun hlt => absurd h3 (by omega)⟩
      · rcases pr1 with ⟨av1, cur1⟩
        dsimp only
        rcases hg2 : STLink.get_communication_frequencies WireProtocol.Jtag
            { s2 with swd_speed_khz := cur1 } d2 with ⟨rg2, s3, d3⟩
        have hs3 : s3 = { s2 with swd_speed_khz := cur1 } := by
          have := gcf_state WireProtocol.Jtag { s2 with swd_speed_khz := cur1 } d2
          rw [hg2] at this
          exact this
        subst hs3
        rcases rg2 with f | pr2
        · dsimp only
          exact ⟨hf.1, hf.2.2.2, fun hlt => absurd h3 (by omega)⟩
        · rcases pr2 with ⟨av2, cur2⟩
          dsimp only
          rcases hg3 : STLink.get_target_voltage
              { s2 with swd_speed_khz := cur1, jtag_speed_khz := cur2 } d3 with ⟨rg3, s4, d4⟩
          have hs4 : s4 = { s2 with swd_speed_khz := cur1, jtag_speed_khz := cur2 } := by
            have := gtv_state { s2 with swd_speed_khz := cur1, jtag_speed_khz := cur2 } d3
            rw [hg3] at this
            exact this
          subst hs4
          rcases rg3 with f | vv2 <;> dsimp only <;>
            exact ⟨hf.1, hf.2.2.2, fun hlt => absurd h3 (by omega)⟩
    · rw [if_neg h3]
      dsimp only
      rcases hg3 : STLink.get_target_voltage s1 d1 with ⟨rg3, s4, d4⟩
      have hs4 : s4 = s1 := by
        have := gtv_state s1 d1
        rw [hg3] at this
        exact this
      subst hs4
      rcases rg3 with f | vv2 <;> dsimp only <;>
        exact ⟨hf.1, hf.2.2.2, fun _ => ⟨hf.2.1, hf.2.2.1⟩⟩

theorem init_state_fields (s : STLink) (d : Dev) :
    (STLink.init s d).2.1.protocol = s.protocol ∧
    (STLink.init s d).2.1.current_ap = s.current_ap ∧
    ((STLink.init s d).2.1.hw_version < 3 →
      (STLink.init s d).2.1.swd_speed_khz = s.swd_speed_khz ∧
      (STLink.init s d).2.1.jtag_speed_khz = s.jtag_speed_khz) := by
  unfold STLink.init
  rcases hei : STLink.enter_idle s d with ⟨re, s1, d1⟩
  have hs1 : s1 = s := by
    have := enter_idle_state s d
    rw [hei] at this
    exact this
  subst hs1
  rcases re with f | u
  · rcases f with e | msg
    · rcases e with _ | _ | _ | k | pe
      · dsimp only
        rw [devReset_run]
        by_cases hro : d1.resetOracle d1.resetCount
        · rw [if_pos hro]
          dsimp only
          rcases hei2 : STLink.enter_idle s1 (dResetStep d1) with ⟨re2, s2, d3⟩
          have hs2 : s2 = s1 := by
            have := enter_idle_state s1 (dResetStep d1)
            rw [hei2] at this
            exact this
          subst hs2
          rcases re2 with f2 | u2
          · exact ⟨rfl, rfl, fun _ => ⟨rfl, rfl⟩⟩
          · exact init_rest_state_fields s2 d3
        · rw [if_neg hro]
          exact ⟨rfl, rfl, fun _ => ⟨rfl, rfl⟩⟩
      · exact ⟨rfl, rfl, fun _ => ⟨rfl, rfl⟩⟩
      · exact ⟨rfl, rfl, fun _ => ⟨rfl, rfl⟩⟩
      · exact ⟨rfl, rfl, fun _ => ⟨rfl, rfl⟩⟩
      · exact ⟨rfl, rfl, fun _ => ⟨rfl, rfl⟩⟩
    · exact ⟨rfl, rfl, fun _ => ⟨rfl, rfl⟩⟩
  · exact init_rest_state_fields s1 d1

/-- C10: every successfully constructed driver starts with protocol SWD, SWD
speed 1800 kHz, JTAG speed 1120 kHz, and no cached AP; when the hardware
version negotiated during initialization is below 3 the two default speeds
survive initialization unchanged (only the hardware-version-3 path overwrites
them from the probe's reported current frequencies); and the speed getter
returns the field of whichever protocol is currently selected. -/
theorem construction_defaults :
    (defaultSTLink.protocol = WireProtocol.Swd ∧
     defaultSTLink.swd_speed_khz = 1800 ∧
     defaultSTLink.jtag_speed_khz = 1120 ∧
     defaultSTLink.current_ap = none) ∧
    (∀ s : STLink,
      (s.protocol = WireProtocol.Swd → STLink.speed s = s.swd_speed_khz) ∧
      (s.protocol = WireProtocol.Jtag → STLink.speed s = s.jtag_speed_khz)) ∧
    (∀ (d : Dev) (s1 : STLink), (STLink.new_from_probe_info d).1 = Except.ok s1 →
      s1.protocol = WireProtocol.Swd ∧
      s1.current_ap = none ∧
      (s1.hw_version < 3 → s1.swd_speed_khz = 1800 ∧ s1.jtag_speed_khz = 1120) ∧
      STLink.speed s1 = s1.swd_speed_khz) := by
  refine ⟨⟨rfl, rfl, rfl, rfl⟩, ?_, ?_⟩
  · intro s
    constructor <;> intro hp <;> unfold STLink.speed <;> rw [hp]
  · intro d s1 hok
    have hfields := init_state_fields defaultSTLink d
    unfold STLink.new_from_probe_info at hok
    rcases hini : STLink.init defaultSTLink d with ⟨r, si, di⟩
    rw [hini] at hok hfields
    dsimp only at hok hfields
    rcases r with f | u
    · exact absurd hok (by simp)
    · have hsi : si = s1 := Except.ok.inj hok
      subst hsi
      refine ⟨hfields.1, hfields.2.1, hfields.2.2, ?_⟩
      unfold STLink.speed
      rw [hfields.1]
      rfl

theorem construction_defaults_witness :
    (STLink.new_from_probe_info (mkDev (fun k =>
        if k = 0 then some [2]
        else if k = 1 then some [0x26, 0, 0, 0, 0, 0]
        else some (le4 1000 ++ le4 500)))).2.1.protocol = WireProtocol.Swd ∧
    (STLink.new_from_probe_info (mkDev (fun k =>
        if k = 0 then some [2]
        else if k = 1 then some [0x26, 0, 0, 0, 0, 0]
        else some (le4 1000 ++ le4 500)))).2.1.current_ap = none ∧
    (STLink.new_from_probe_info (mkDev (fun k =>
        if k = 0 then some [2]
        else if k = 1 then some [0x26, 0, 0, 0, 0, 0]
        else some (le4 1000 ++ le4 500)))).2.1.swd_speed_khz = 1800 ∧
    (STLink.new_from_probe_info (mkDev (fun k =>
        if k = 0 then some [2]
        else if k = 1 then some [0x26, 0, 0, 0, 0, 0]
        else some (le4 1000 ++ le4 500)))).2.1.jtag_speed_khz = 1120 ∧
    STLink.speed (STLink.new_from_probe_info (mkDev (fun k =>
        if k = 0 then some [2]
        else if k = 1 then some [0x26, 0, 0, 0, 0, 0]
        else some (le4 1000 ++ le4 500)))).2.1 =
      (STLink.new_from_probe_info (mkDev (fun k =>
        if k = 0 then some [2]
        else if k = 1 then some [0x26, 0, 0, 0, 0, 0]
        else some (le4 1000 ++ le4 500)))).2.1.swd_speed_khz := by
  have h := construction_defaults.2.2 (mkDev (fun k =>
      if k = 0 then some [2]
      else if k = 1 then some [0x26, 0, 0, 0, 0, 0]
      else some (le4 1000 ++ le4 500)))
    ((STLink.new_from_probe_info (mkDev (fun k =>
        if k = 0 then some [2]
        else if k = 1 then some [0x26, 0, 0, 0, 0, 0]
        else some (le4 1000 ++ le4 500)))).2.1) rfl
  exact ⟨h.1, h.2.1, (h.2.2.1 (by decide)).1, (h.2.2.1 (by decide)).2, h.2.2.2⟩

theorem countReset_append (a b : List DevEvent) :
    countReset (a ++ b) = countReset a + countReset b := by
  simp [countReset, List.filter_append]

theorem countW_append (cmd : List Nat) (a b : List DevEvent) :
    countW cmd (a ++ b) = countW cmd a + countW cmd b := by
  simp [countW, List.filter_append]

theorem reset_notin_of_countReset_zero (t : List DevEvent) :
    countReset t = 0 → DevEvent.reset ∉ t := by
  intro h hm
  have : DevEvent.reset ∈ t.filter (fun e => e = DevEvent.reset) :=
    List.mem_filter.mpr ⟨hm, by simp⟩
  rw [List.eq_nil_of_length_eq_zero h] at this
  exact absurd this (List.not_mem_nil _)

theorem cw_symb_scf (p f : Nat) :
    countW [commands.GET_CURRENT_MODE] [DevEvent.write (setComFreqCmd p f)] = 0 := by
  simp [countW, setComFreqCmd, le4, List.filter, commands.GET_CURRENT_MODE,
    commands.JTAG_COMMAND, commands.SET_COM_FREQ]

theorem cr_two_writes (a b : List Nat) :
    countReset [DevEvent.write a, DevEvent.write b] = 0 := by
  simp [countReset, List.filter]

theorem cw_single_ne (cmd c : List Nat) (h : ¬c = cmd) :
    countW cmd [DevEvent.write c] = 0 := by
  simp [countW, List.filter, h]

theorem cw_single_eq (cmd : List Nat) : countW cmd [DevEvent.write cmd] = 1 := by
  simp [countW, List.filter]

theorem cr_single_write (a : List Nat) : countReset [DevEvent.write a] = 0 := by
  simp [countReset, List.filter]

theorem enter_idle_delta (s : STLink) (d : Dev) :
    ∃ δ, (STLink.enter_idle s d).2.2.trace = d.trace ++ δ ∧
      countReset δ = 0 ∧ countW [commands.GET_CURRENT_MODE] δ = 1 ∧ δ.Nodup ∧
      (δ = [DevEvent.write [commands.GET_CURRENT_MODE]] ∨
       δ = [DevEvent.write [commands.GET_CURRENT_MODE],
            DevEvent.write [commands.DFU_COMMAND, commands.DFU_EXIT]] ∨
       δ = [DevEvent.write [commands.GET_CURRENT_MODE],
            DevEvent.write [commands.SWIM_COMMAND, commands.SWIM_EXIT]]) := by
  unfold STLink.enter_idle STLink.get_current_mode
  rw [devWrite_run]
  rcases hor : d.oracle d.count with _ | resp
  · exact ⟨[DevEvent.write [commands.GET_CURRENT_MODE]], by simp [dStep], by decide, by decide,
      by decide, Or.inl rfl⟩
  · dsimp only
    rcases hb : (padTo 2 resp).getD 0 0 with _ | _ | _ | _ | b
    all_goals try dsimp only
    · rw [devWrite_run]
      rcases hor2 : (dStep [commands.GET_CURRENT_MODE] d).oracle
          (dStep [commands.GET_CURRENT_MODE] d).count with _ | resp2 <;>
        exact ⟨[DevEvent.write [commands.GET_CURRENT_MODE],
                DevEvent.write [commands.DFU_COMMAND, commands.DFU_EXIT]],
               by simp [dStep], by decide, by decide, by decide, Or.inr (Or.inl rfl)⟩
    · exact ⟨[DevEvent.write [commands.GET_CURRENT_MODE]], by simp [dStep], by decide, by decide,
        by decide, Or.inl rfl⟩
    · exact ⟨[DevEvent.write [commands.GET_CURRENT_MODE]], by simp [dStep], by decide, by decide,
        by decide, Or.inl rfl⟩
    · rw [devWrite_run]
      rcases hor2 : (dStep [commands.GET_CURRENT_MODE] d).oracle
          (dStep [commands.GET_CURRENT_MODE] d).count with _ | resp2 <;>
        exact ⟨[DevEvent.write [commands.GET_CURRENT_MODE],
                DevEvent.write [commands.SWIM_COMMAND, commands.SWIM_EXIT]],
               by simp [dStep], by decide, by decide, by decide, Or.inr (Or.inr rfl)⟩
    · exact ⟨[DevEvent.write [commands.GET_CURRENT_MODE]], by simp [dStep], by decide, by decide,
        by decide, Or.inl rfl⟩

theorem ssf_delta (f : Nat) (s : STLink) (d : Dev) :
    (STLink.set_swd_frequency f s d).2.2.trace =
      d.trace ++ [DevEvent.write [commands.JTAG_COMMAND, commands.SWD_SET_FREQ,
                                  SwdFrequencyToDelayCount.code f]] := by
  unfold STLink.set_swd_frequency
  rw [devWrite_run]
  rcases hor : d.oracle d.count with _ | resp
  · simp [dStep]
  · dsimp only
    rcases hcs : STLink.check_status (padTo 2 resp) with e | u <;> simp [dStep]

theorem sjf_delta (f : Nat) (s : STLink) (d : Dev) :
    (STLink.set_jtag_frequency f s d).2.2.trace =
      d.trace ++ [DevEvent.write [commands.JTAG_COMMAND, commands.JTAG_SET_FREQ,
                                  JTagFrequencyToDivider.code f]] := by
  unfold STLink.set_jtag_frequency
  rw [devWrite_run]
  rcases hor : d.oracle d.count with _ | resp
  · simp [dStep]
  · dsimp only
    rcases hcs : STLink.check_status (padTo 2 resp) with e | u <;> simp [dStep]

theorem gtv_delta (s : STLink) (d : Dev) :
    (STLink.get_target_voltage s d).2.2.trace =
      d.trace ++ [DevEvent.write [commands.GET_TARGET_VOLTAGE]] := by
  unfold STLink.get_target_voltage
  rw [devWrite_run]
  rcases hor : d.oracle d.count with _ | resp
  · simp [dStep]
  · dsimp only
    split <;> simp [dStep]

theorem target_reset_delta (s : STLink) (d : Dev) :
    (STLink.target_reset s d).2.2.trace =
      d.trace ++ [DevEvent.write [commands.JTAG_COMMAND, commands.JTAG_DRIVE_NRST,
                                  commands.JTAG_DRIVE_NRST_PULSE]] := by
  unfold STLink.target_reset
  rw [devWrite_run]
  rcases hor : d.oracle d.count with _ | resp
  · simp [dStep]
  · dsimp only
    rcases hcs : STLink.check_status (padTo 2 resp) with e | u <;> simp [dStep]

theorem gv_delta (s : STLink) (d : Dev) :
    ∃ δ, (STLink.get_version s d).2.2.trace = d.trace ++ δ ∧
      countReset δ = 0 ∧ countW [commands.GET_CURRENT_MODE] δ = 0 ∧ δ.Nodup ∧
      (δ = [DevEvent.write [commands.GET_VERSION]] ∨
       δ = [DevEvent.write [commands.GET_VERSION],
            DevEvent.write [commands.GET_VERSION_EXT]]) := by
  unfold STLink.get_version
  rw [devWrite_run]
  rcases hor : d.oracle d.count with _ | resp
  · exact ⟨[DevEvent.write [commands.GET_VERSION]], by simp [dStep], by decide, by decide,
      by decide, Or.inl rfl⟩
  · dsimp only
    by_cases h3 : 3 ≤ ((padTo 6 resp).getD 0 0 * 256 + (padTo 6 resp).getD 1 0) >>> 12 % 256 &&& 0x0F
    · rw [if_pos h3]
      rw [devWrite_run, dStep_oracle, dStep_count]
      rcases hor2 : d.oracle (d.count + 1) with _ | resp2
      · exact ⟨[DevEvent.write [commands.GET_VERSION], DevEvent.write [commands.GET_VERSION_EXT]],
          by simp [dStep], by decide, by decide, by decide, Or.inr rfl⟩
      · dsimp only
        repeat' split
        all_goals exact ⟨[DevEvent.write [commands.GET_VERSION],
                          DevEvent.write [commands.GET_VERSION_EXT]],
          by simp [dStep], by decide, by decide, by decide, Or.inr rfl⟩
    · rw [if_neg h3]
      dsimp only
      repeat' split
      all_goals exact ⟨[DevEvent.write [commands.GET_VERSION]], by simp [dStep], by decide,
        by decide, by decide, Or.inl rfl⟩

theorem cw_gm_gcf (p : Nat) :
    countW [commands.GET_CURRENT_MODE] [DevEvent.write (getComFreqCmd p)] = 0 := by
  simp [countW, List.filter, getComFreqCmd, commands.GET_CURRENT_MODE, commands.JTAG_COMMAND,
    commands.GET_COM_FREQ]

theorem gcf_delta (p : WireProtocol) (s : STLink) (d : Dev) :
    ∃ δ, (STLink.get_communication_frequencies p s d).2.2.trace = d.trace ++ δ ∧
      countReset δ = 0 ∧ countW [commands.GET_CURRENT_MODE] δ = 0 ∧ δ.Nodup ∧
      (δ = [] ∨ ∃ q, δ = [DevEvent.write (getComFreqCmd q)]) := by
  unfold STLink.get_communication_frequencies
  split
  · dsimp only
    rw [devWrite_run]
    rcases hor : d.oracle d.count with _ | resp
    · exact ⟨[DevEvent.write (getComFreqCmd (match p with
                | WireProtocol.Swd => 0 | WireProtocol.Jtag => 1))],
        by simp [dStep], cr_single_write _, cw_gm_gcf _, List.nodup_singleton _, Or.inr ⟨_, rfl⟩⟩
    · dsimp only
      rcases hcs : STLink.check_status (padTo 52 resp) with e | u <;>
        exact ⟨[DevEvent.write (getComFreqCmd (match p with
                  | WireProtocol.Swd => 0 | WireProtocol.Jtag => 1))],
          by simp [dStep], cr_single_write _, cw_gm_gcf _, List.nodup_singleton _, Or.inr ⟨_, rfl⟩⟩
  · exact ⟨[], by simp, by decide, by decide, by decide, Or.inl rfl⟩

theorem scf_delta (p : WireProtocol) (f : Nat) (s : STLink) (d : Dev) :
    ∃ δ, (STLink.set_communication_frequency p f s d).2.2.trace = d.trace ++ δ ∧
      countReset δ = 0 ∧ countW [commands.GET_CURRENT_MODE] δ = 0 ∧ δ.Nodup ∧
      (δ = [] ∨ ∃ q c, δ = [DevEvent.write (setComFreqCmd q c)]) := by
  unfold STLink.set_communication_frequency
  split
  · dsimp only
    rw [devWrite_run]
    rcases hor : d.oracle d.count with _ | resp
    · exact ⟨[DevEvent.write (setComFreqCmd (match p with
                | WireProtocol.Swd => 0 | WireProtocol.Jtag => 1) f)],
        by simp [dStep], cr_single_write _, cw_symb_scf _ _, List.nodup_singleton _,
        Or.inr ⟨_, _, rfl⟩⟩
    · dsimp only
      rcases hcs : STLink.check_status (padTo 8 resp) with e | u <;>
        exact ⟨[DevEvent.write (setComFreqCmd (match p with
                  | WireProtocol.Swd => 0 | WireProtocol.Jtag => 1) f)],
          by simp [dStep], cr_single_write _, cw_symb_scf _ _, List.nodup_singleton _,
          Or.inr ⟨_, _, rfl⟩⟩
  · exact ⟨[], by simp, by decide, by decide, by decide, Or.inl rfl⟩

theorem open_ap_delta (a : Nat) (s : STLink) (d : Dev) :
    ∃ δ, (STLink.open_ap a s d).2.2.trace = d.trace ++ δ ∧
      (δ = [] ∨ δ = [DevEvent.write (openApCmd a)]) := by
  unfold STLink.open_ap
  split
  · exact ⟨[], by simp, Or.inl rfl⟩
  · rw [devWrite_run]
    rcases hor : d.oracle d.count with _ | resp
    · exact ⟨[DevEvent.write (openApCmd a)], by simp [dStep], Or.inr rfl⟩
    · dsimp only
      rcases hcs : STLink.check_status (padTo 2 resp) with e | u <;>
        exact ⟨[DevEvent.write (openApCmd a)], by simp [dStep], Or.inr rfl⟩

theorem close_ap_delta (a : Nat) (s : STLink) (d : Dev) :
    ∃ δ, (STLink.close_ap a s d).2.2.trace = d.trace ++ δ ∧
      (δ = [] ∨ δ = [DevEvent.write (closeApCmd a)]) := by
  unfold STLink.close_ap
  split
  · exact ⟨[], by simp, Or.inl rfl⟩
  · rw [devWrite_run]
    rcases hor : d.oracle d.count with _ | resp
    · exact ⟨[DevEvent.write (closeApCmd a)], by simp [dStep], Or.inr rfl⟩
    · dsimp only
      rcases hcs : STLink.check_status (padTo 2 resp) with e | u <;>
        exact ⟨[DevEvent.write (closeApCmd a)], by simp [dStep], Or.inr rfl⟩

theorem ap_switch_delta (port : PortType) (s : STLink) (d : Dev) :
    ∃ δ, (STLink.ap_switch port s d).2.2.trace = d.trace ++ δ ∧
      countReset δ = 0 ∧ δ.Nodup ∧
      (δ = [] ∨ (∃ a, δ = [DevEvent.write (openApCmd a)]) ∨
       (∃ a, δ = [DevEvent.write (closeApCmd a)]) ∨
       (∃ a b, δ = [DevEvent.write (closeApCmd a), DevEvent.write (openApCmd b)])) := by
  unfold STLink.ap_switch
  rcases port with _ | n
  · exact ⟨[], by simp, by decide, by decide, Or.inl rfl⟩
  · dsimp only
    rcases hca : s.current_ap with _ | m
    · obtain ⟨δ, hδ, hopt⟩ := open_ap_delta (n % 256) s d
      rcases ho : STLink.open_ap (n % 256) s d with ⟨ro, s1, d1⟩
      rw [ho] at hδ
      dsimp only at hδ
      rcases ro with f | u
      · rcases hopt with h | h <;> subst h
        · exact ⟨[], by simp [hδ], by decide, by decide, Or.inl rfl⟩
        · exact ⟨[DevEvent.write (openApCmd (n % 256))], by simp [hδ], cr_single_write _,
            List.nodup_singleton _, Or.inr (Or.inl ⟨_, rfl⟩)⟩
      · rcases hopt with h | h <;> subst h
        · exact ⟨[], by simp [hδ], by decide, by decide, Or.inl rfl⟩
        · exact ⟨[DevEvent.write (openApCmd (n % 256))], by simp [hδ], cr_single_write _,
            List.nodup_singleton _, Or.inr (Or.inl ⟨_, rfl⟩)⟩
    · dsimp only
      split
      · obtain ⟨δ1, hδ1, hopt1⟩ := close_ap_delta (m % 256) s d
        rcases hc : STLink.close_ap (m % 256) s d with ⟨rc, s1, d1⟩
        rw [hc] at hδ1
        dsimp only at hδ1
        rcases rc with f | u
        · rcases hopt1 with h | h <;> subst h
          · exact ⟨[], by simp [hδ1], by decide, by decide, Or.inl rfl⟩
          · exact ⟨[DevEvent.write (closeApCmd (m % 256))], by simp [hδ1], cr_single_write _,
              List.nodup_singleton _, Or.inr (Or.inr (Or.inl ⟨_, rfl⟩))⟩
        · obtain ⟨δ2, hδ2, hopt2⟩ := open_ap_delta (n % 256) s1 d1
          rcases hoo : STLink.open_ap (n % 256) s1 d1 with ⟨ro, s2, d2⟩
          rw [hoo] at hδ2
          dsimp only at hδ2
          rcases ro with f | u
          · simp only [hoo]
            rcases hopt1 with h1 | h1 <;> rcases hopt2 with h2 | h2 <;> subst h1 <;> subst h2
            · exact ⟨[], by simp [hδ2, hδ1], by decide, by decide, Or.inl rfl⟩
            · exact ⟨[DevEvent.write (openApCmd (n % 256))], by simp [hδ2, hδ1],
                cr_single_write _, List.nodup_singleton _, Or.inr (Or.inl ⟨_, rfl⟩)⟩
            · exact ⟨[DevEvent.write (closeApCmd (m % 256))], by simp [hδ2, hδ1],
                cr_single_write _, List.nodup_singleton _, Or.inr (Or.inr (Or.inl ⟨_, rfl⟩))⟩
            · exact ⟨[DevEvent.write (closeApCmd (m % 256)), DevEvent.write (openApCmd (n % 256))],
                by simp [hδ2, hδ1], cr_two_writes _ _,
                by simp [closeApCmd, openApCmd, commands.JTAG_COMMAND, commands.JTAG_CLOSE_AP_DBG,
                  commands.JTAG_INIT_AP],
                Or.inr (Or.inr (Or.inr ⟨_, _, rfl⟩))⟩
          · simp only [hoo]
            rcases hopt1 with h1 | h1 <;> rcases hopt2 with h2 | h2 <;> subst h1 <;> subst h2
            · exact ⟨[], by simp [hδ2, hδ1], by decide, by decide, Or.inl rfl⟩
            · exact ⟨[DevEvent.write (openApCmd (n % 256))], by simp [hδ2, hδ1],
                cr_single_write _, List.nodup_singleton _, Or.inr (Or.inl ⟨_, rfl⟩)⟩
            · exact ⟨[DevEvent.write (closeApCmd (m % 256))], by simp [hδ2, hδ1],
                cr_single_write _, List.nodup_singleton _, Or.inr (Or.inr (Or.inl ⟨_, rfl⟩))⟩
            · exact ⟨[DevEvent.write (closeApCmd (m % 256)), DevEvent.write (openApCmd (n % 256))],
                by simp [hδ2, hδ1], cr_two_writes _ _,
                by simp [closeApCmd, openApCmd, commands.JTAG_COMMAND, commands.JTAG_CLOSE_AP_DBG,
                  commands.JTAG_INIT_AP],
                Or.inr (Or.inr (Or.inr ⟨_, _, rfl⟩))⟩
      · exact ⟨[], by simp, by decide, by decide, Or.inl rfl⟩

theorem noretry_step (d d1 : Dev) (c : List Nat) (δ1 : List DevEvent)
    (hδ1 : d1.trace = d.trace ++ δ1) (hr : DevEvent.reset ∉ δ1) (hnd : δ1.Nodup)
    (hni : DevEvent.write c ∉ δ1) :
    noRetryFrom d (dStep c d1) := by
  refine ⟨δ1 ++ [DevEvent.write c], by simp [dStep, hδ1], ?_, ?_⟩
  · simp [List.mem_append, hr]
  · exact List.Nodup.append hnd (List.nodup_singleton _)
      (fun a ha hb => by rw [List.mem_singleton] at hb; subst hb; exact hni ha)

theorem rd_notin_ap (port : PortType) (addr : Nat) (δ1 : List DevEvent)
    (hopt : δ1 = [] ∨ (∃ a, δ1 = [DevEvent.write (openApCmd a)]) ∨
      (∃ a, δ1 = [DevEvent.write (closeApCmd a)]) ∨
      (∃ a b, δ1 = [DevEvent.write (closeApCmd a), DevEvent.write (openApCmd b)])) :
    DevEvent.write (readDapCmd port addr) ∉ δ1 := by
  rcases hopt with h | ⟨a, h⟩ | ⟨a, h⟩ | ⟨a, b, h⟩ <;> subst h <;>
    simp [readDapCmd, openApCmd, closeApCmd]

theorem wrc_notin_ap (port : PortType) (addr value : Nat) (δ1 : List DevEvent)
    (hopt : δ1 = [] ∨ (∃ a, δ1 = [DevEvent.write (openApCmd a)]) ∨
      (∃ a, δ1 = [DevEvent.write (closeApCmd a)]) ∨
      (∃ a b, δ1 = [DevEvent.write (closeApCmd a), DevEvent.write (openApCmd b)])) :
    DevEvent.write (writeDapCmd port addr value) ∉ δ1 := by
  rcases hopt with h | ⟨a, h⟩ | ⟨a, h⟩ | ⟨a, b, h⟩ <;> subst h <;>
    simp [writeDapCmd, openApCmd, closeApCmd]

theorem rr_noretry (port : PortType) (addr : Nat) (s : STLink) (d : Dev) :
    noRetryFrom d (STLink.read_register port addr s d).2.2 := by
  unfold STLink.read_register
  split
  · obtain ⟨δ1, hδ1, hcr, hnd, hopt⟩ := ap_switch_delta port s d
    rcases hap : STLink.ap_switch port s d with ⟨ra, s1, d1⟩
    rw [hap] at hδ1
    dsimp only at hδ1
    rcases ra with f | u
    · exact ⟨δ1, hδ1, reset_notin_of_countReset_zero _ hcr, hnd⟩
    · dsimp only
      rw [devWrite_run]
      rcases hor : d1.oracle d1.count with _ | resp
      · exact noretry_step d d1 (readDapCmd port addr) δ1 hδ1
          (reset_notin_of_countReset_zero _ hcr) hnd (rd_notin_ap port addr δ1 hopt)
      · dsimp only
        rcases hcs : STLink.check_status (padTo 8 resp) with e | u2 <;>
          exact noretry_step d d1 (readDapCmd port addr) δ1 hδ1
            (reset_notin_of_countReset_zero _ hcr) hnd (rd_notin_ap port addr δ1 hopt)
  · exact ⟨[], by simp, by simp, List.nodup_nil⟩

theorem wr_noretry (port : PortType) (addr value : Nat) (s : STLink) (d : Dev) :
    noRetryFrom d (STLink.write_register port addr value s d).2.2 := by
  unfold STLink.write_register
  split
  · obtain ⟨δ1, hδ1, hcr, hnd, hopt⟩ := ap_switch_delta port s d
    rcases hap : STLink.ap_switch port s d with ⟨ra, s1, d1⟩
    rw [hap] at hδ1
    dsimp only at hδ1
    rcases ra with f | u
    · exact ⟨δ1, hδ1, reset_notin_of_countReset_zero _ hcr, hnd⟩
    · dsimp only
      rw [devWrite_run]
      rcases hor : d1.oracle d1.count with _ | resp
      · exact noretry_step d d1 (writeDapCmd port addr value) δ1 hδ1
          (reset_notin_of_countReset_zero _ hcr) hnd (wrc_notin_ap port addr value δ1 hopt)
      · dsimp only
        rcases hcs : STLink.check_status (padTo 2 resp) with e | u2 <;>
          exact noretry_step d d1 (writeDapCmd port addr value) δ1 hδ1
            (reset_notin_of_countReset_zero _ hcr) hnd (wrc_notin_ap port addr value δ1 hopt)
  · exact ⟨[], by simp, by simp, List.nodup_nil⟩

theorem char38_nil :
    ∀ e ∈ ([] : List DevEvent), ∃ c, e = DevEvent.write c ∧ (c.length = 3 ∨ c.length = 8) := by
  simp

theorem char38_gcf (q : Nat) :
    ∀ e ∈ [DevEvent.write (getComFreqCmd q)],
      ∃ c, e = DevEvent.write c ∧ (c.length = 3 ∨ c.length = 8) := by
  intro e he
  rw [List.mem_singleton] at he
  subst he
  exact ⟨_, rfl, Or.inl rfl⟩

theorem freq_pair_delta (δ1 δ2 : List DevEvent)
    (hopt1 : δ1 = [] ∨ ∃ q, δ1 = [DevEvent.write (getComFreqCmd q)])
    (hopt2 : δ2 = [] ∨ ∃ q c, δ2 = [DevEvent.write (setComFreqCmd q c)]) :
    (δ1 ++ δ2).Nodup ∧
    ∀ e ∈ δ1 ++ δ2, ∃ c, e = DevEvent.write c ∧ (c.length = 3 ∨ c.length = 8) := by
  rcases hopt1 with h1 | ⟨q1, h1⟩ <;> rcases hopt2 with h2 | ⟨q2, c2, h2⟩ <;>
    subst h1 <;> subst h2 <;> constructor
  · exact List.nodup_nil
  · exact char38_nil
  · exact List.nodup_singleton _
  · intro e he
    simp only [List.nil_append, List.mem_singleton] at he
    subst he
    exact ⟨_, rfl, Or.inr rfl⟩
  · exact List.nodup_singleton _
  · intro e he
    simp only [List.append_nil] at he
    exact char38_gcf q1 e he
  · simp [getComFreqCmd, setComFreqCmd, le4]
  · intro e he
    simp only [List.cons_append, List.nil_append, List.mem_cons, List.mem_singleton] at he
    rcases he with h | h | h
    · exact ⟨_, h, Or.inl rfl⟩
    · exact ⟨_, h, Or.inr rfl⟩
    · exact absurd h (by simp)

theorem set_speed_delta (k : Nat) (s : STLink) (d : Dev) :
    ∃ δ, (STLink.set_speed k s d).2.2.trace = d.trace ++ δ ∧
      countReset δ = 0 ∧ δ.Nodup ∧
      ∀ e ∈ δ, ∃ c, e = DevEvent.write c ∧ (c.length = 3 ∨ c.length = 8) := by
  unfold STLink.set_speed
  split
  · rcases hp : s.protocol
    · dsimp only
      rcases hf : SwdFrequencyToDelayCount.find_setting k with _ | a
      · exact ⟨[], by simp, by decide, by decide, char38_nil⟩
      · dsimp only
        have ht := ssf_delta a s d
        rcases hsf : STLink.set_swd_frequency a s d with ⟨r1, s1, d1⟩
        rw [hsf] at ht
        dsimp only at ht
        rcases r1 with f | u <;>
          exact ⟨[DevEvent.write [commands.JTAG_COMMAND, commands.SWD_SET_FREQ,
                   SwdFrequencyToDelayCount.code a]], ht, cr_single_write _,
                 List.nodup_singleton _,
                 fun e he => by rw [List.mem_singleton] at he; exact ⟨_, he, Or.inl rfl⟩⟩
    · dsimp only
      rcases hf : JTagFrequencyToDivider.find_setting k with _ | a
      · exact ⟨[], by simp, by decide, by decide, char38_nil⟩
      · dsimp only
        have ht := sjf_delta a s d
        rcases hsf : STLink.set_jtag_frequency a s d with ⟨r1, s1, d1⟩
        rw [hsf] at ht
        dsimp only at ht
        rcases r1 with f | u <;>
          exact ⟨[DevEvent.write [commands.JTAG_COMMAND, commands.JTAG_SET_FREQ,
                   JTagFrequencyToDivider.code a]], ht, cr_single_write _,
                 List.nodup_singleton _,
                 fun e he => by rw [List.mem_singleton] at he; exact ⟨_, he, Or.inl rfl⟩⟩
  · split
    · obtain ⟨δ1, hδ1, hcr1, hcw1, hnd1, hopt1⟩ := gcf_delta s.protocol s d
      rcases hg : STLink.get_communication_frequencies s.protocol s d with ⟨rg, s1, d1⟩
      rw [hg] at hδ1
      dsimp only at hδ1
      have hchar1 : ∀ e ∈ δ1, ∃ c, e = DevEvent.write c ∧ (c.length = 3 ∨ c.length = 8) := by
        rcases hopt1 with h | ⟨q, h⟩ <;> subst h
        · exact char38_nil
        · exact char38_gcf q
      rcases rg with f | pr
      · exact ⟨δ1, hδ1, hcr1, hnd1, hchar1⟩
      · rcases pr with ⟨avail, cur⟩
        dsimp only
        rcases hmax : (avail.filter (fun v => v ≤ k)).max? with _ | a
        · exact ⟨δ1, hδ1, hcr1, hnd1, hchar1⟩
        · dsimp only
          obtain ⟨δ2, hδ2, hcr2, hcw2, hnd2, hopt2⟩ := scf_delta s1.protocol a s1 d1
          rcases hsc : STLink.set_communication_frequency s1.protocol a s1 d1 with ⟨r2, s2, d2⟩
          rw [hsc] at hδ2
          dsimp only at hδ2
          have hpair := freq_pair_delta δ1 δ2 hopt1 hopt2
          have htr : d2.trace = d.trace ++ (δ1 ++ δ2) := by
            rw [hδ2, hδ1, List.append_assoc]
          have hcr : countReset (δ1 ++ δ2) = 0 := by
            rw [countReset_append, hcr1, hcr2]
          rcases r2 with f | u
          · exact ⟨δ1 ++ δ2, htr, hcr, hpair.1, hpair.2⟩
          · dsimp only
            have hfin : ∃ δ, d2.trace = d.trace ++ δ ∧ countReset δ = 0 ∧ δ.Nodup ∧
                ∀ e ∈ δ, ∃ c, e = DevEvent.write c ∧ (c.length = 3 ∨ c.length = 8) :=
              ⟨δ1 ++ δ2, htr, hcr, hpair.1, hpair.2⟩
            rcases hp2 : s2.protocol <;> exact hfin
    · exact ⟨[], by simp, by decide, by decide, char38_nil⟩

theorem disjoint_len (l1 l2 : List DevEvent)
    (P1 : ∀ e ∈ l1, ∃ c, e = DevEvent.write c ∧ (c.length = 1 ∨ c.length = 2 ∨ c.length = 4))
    (P2 : ∀ e ∈ l2, ∃ c, e = DevEvent.write c ∧ (c.length = 3 ∨ c.length = 8)) :
    List.Disjoint l1 l2 := by
  intro a h1 h2
  obtain ⟨c1, he1, hl1⟩ := P1 a h1
  obtain ⟨c2, he2, hl2⟩ := P2 a h2
  subst he1
  injection he2 with hc
  subst hc
  rcases hl1 with h | h | h <;> rcases hl2 with h2 | h2 <;> omega

theorem char124_ei (δ : List DevEvent) (p : Nat)
    (h : δ = [DevEvent.write [commands.GET_CURRENT_MODE]] ∨
         δ = [DevEvent.write [commands.GET_CURRENT_MODE],
              DevEvent.write [commands.DFU_COMMAND, commands.DFU_EXIT]] ∨
         δ = [DevEvent.write [commands.GET_CURRENT_MODE],
              DevEvent.write [commands.SWIM_COMMAND, commands.SWIM_EXIT]]) :
    ∀ e ∈ δ ++ [DevEvent.write [commands.JTAG_COMMAND, commands.JTAG_ENTER2, p, 0]],
      ∃ c, e = DevEvent.write c ∧ (c.length = 1 ∨ c.length = 2 ∨ c.length = 4) := by
  rcases h with h | h | h <;> subst h <;> intro e he <;>
    simp only [List.cons_append, List.nil_append, List.mem_cons,
      List.not_mem_nil, or_false] at he
  · rcases he with h | h <;> exact ⟨_, h, by simp⟩
  · rcases he with h | h | h <;> exact ⟨_, h, by simp⟩
  · rcases he with h | h | h <;> exact ⟨_, h, by simp⟩

theorem attach_tail_noretry (d d1 : Dev) (s1 : STLink) (p spd : Nat) (δ1 : List DevEvent)
    (hδ1 : d1.trace = d.trace ++ δ1)
    (hopt1 : δ1 = [DevEvent.write [commands.GET_CURRENT_MODE]] ∨
         δ1 = [DevEvent.write [commands.GET_CURRENT_MODE],
              DevEvent.write [commands.DFU_COMMAND, commands.DFU_EXIT]] ∨
         δ1 = [DevEvent.write [commands.GET_CURRENT_MODE],
              DevEvent.write [commands.SWIM_COMMAND, commands.SWIM_EXIT]])
    (h1nd : δ1.Nodup) :
    noRetryFrom d (STLink.set_speed spd s1
      (dStep [commands.JTAG_COMMAND, commands.JTAG_ENTER2, p, 0] d1)).2.2 := by
  obtain ⟨δss, hss, hsscr, hssnd, hsschar⟩ :=
    set_speed_delta spd s1 (dStep [commands.JTAG_COMMAND, commands.JTAG_ENTER2, p, 0] d1)
  refine ⟨(δ1 ++ [DevEvent.write [commands.JTAG_COMMAND, commands.JTAG_ENTER2, p, 0]]) ++ δss,
    ?_, ?_, ?_⟩
  · rw [hss]
    simp [dStep, hδ1]
  · intro hm
    rcases List.mem_append.mp hm with h | h
    · rcases List.mem_append.mp h with h' | h'
      · exact (by rcases hopt1 with hh | hh | hh <;> subst hh <;> decide :
          DevEvent.reset ∉ δ1) h'
      · rw [List.mem_singleton] at h'
        simp at h'
    · exact reset_notin_of_countReset_zero _ hsscr h
  · refine List.Nodup.append ?_ hssnd (disjoint_len _ _ (char124_ei δ1 p hopt1) hsschar)
    refine List.Nodup.append h1nd (List.nodup_singleton _) ?_
    intro a ha hb
    rw [List.mem_singleton] at hb
    subst hb
    exact (by rcases hopt1 with hh | hh | hh <;> subst hh <;> simp :
      DevEvent.write [commands.JTAG_COMMAND, commands.JTAG_ENTER2, p, 0] ∉ δ1) ha

theorem attach_noretry (s : STLink) (d : Dev) : noRetryFrom d (STLink.attach s d).2.2 := by
  unfold STLink.attach
  obtain ⟨δ1, hδ1, h1cr, h1cw, h1nd, hopt1⟩ := enter_idle_delta s d
  rcases hei : STLink.enter_idle s d with ⟨re, s1, d1⟩
  rw [hei] at hδ1
  dsimp only at hδ1
  rcases re with f | u
  · exact ⟨δ1, hδ1, reset_notin_of_countReset_zero _ h1cr, h1nd⟩
  · dsimp only
    rcases hsp : s1.protocol
    · dsimp only
      rw [devWrite_run]
      rcases hor : d1.oracle d1.count with _ | resp
      · exact noretry_step d d1 _ δ1 hδ1 (reset_notin_of_countReset_zero _ h1cr) h1nd
          (by rcases hopt1 with h | h | h <;> subst h <;> decide)
      · dsimp only
        rcases hcs : STLink.check_status (padTo 2 resp) with e | u2
        · exact noretry_step d d1 _ δ1 hδ1 (reset_notin_of_countReset_zero _ h1cr) h1nd
            (by rcases hopt1 with h | h | h <;> subst h <;> decide)
        · dsimp only
          have htail := attach_tail_noretry d d1 s1 commands.JTAG_ENTER_SWD s1.swd_speed_khz
            δ1 hδ1 hopt1 h1nd
          rcases hsp2 : STLink.set_speed s1.swd_speed_khz s1
              (dStep [commands.JTAG_COMMAND, commands.JTAG_ENTER2, commands.JTAG_ENTER_SWD, 0] d1)
              with ⟨rs, s2, d3⟩
          rw [hsp2] at htail
          rcases rs with f2 | u3 <;> exact htail
    · dsimp only
      rw [devWrite_run]
      rcases hor : d1.oracle d1.count with _ | resp
      · exact noretry_step d d1 _ δ1 hδ1 (reset_notin_of_countReset_zero _ h1cr) h1nd
          (by rcases hopt1 with h | h | h <;> subst h <;> decide)
      · dsimp only
        rcases hcs : STLink.check_status (padTo 2 resp) with e | u2
        · exact noretry_step d d1 _ δ1 hδ1 (reset_notin_of_countReset_zero _ h1cr) h1nd
            (by rcases hopt1 with h | h | h <;> subst h <;> decide)
        · dsimp only
          have htail := attach_tail_noretry d d1 s1 commands.JTAG_ENTER_JTAG_NO_CORE_RESET
            s1.jtag_speed_khz δ1 hδ1 hopt1 h1nd
          rcases hsp2 : STLink.set_speed s1.jtag_speed_khz s1
              (dStep [commands.JTAG_COMMAND, commands.JTAG_ENTER2,
                commands.JTAG_ENTER_JTAG_NO_CORE_RESET, 0] d1)
              with ⟨rs, s2, d3⟩
          rw [hsp2] at htail
          rcases rs with f2 | u3 <;> exact htail

theorem init_rest_delta (s : STLink) (d : Dev) :
    ∃ δ, (STLink.init_rest s d).2.2.trace = d.trace ++ δ ∧
      countReset δ = 0 ∧ countW [commands.GET_CURRENT_MODE] δ = 0 := by
  unfold STLink.init_rest
  obtain ⟨δv, hv, hvcr, hvcw, -, -⟩ := gv_delta s d
  rcases hgv : STLink.get_version s d with ⟨rv, s1, d1⟩
  rw [hgv] at hv
  dsimp only at hv
  rcases rv with f | vv
  · exact ⟨δv, hv, hvcr, hvcw⟩
  · dsimp only
    by_cases h3 : s1.hw_version = 3
    · rw [if_pos h3]
      obtain ⟨δ1, h1, h1cr, h1cw, -, -⟩ := gcf_delta WireProtocol.Swd s1 d1
      rcases hg1 : STLink.get_communication_frequencies WireProtocol.Swd s1 d1 with ⟨rg1, s2, d2⟩
      rw [hg1] at h1
      dsimp only at h1
      rcases rg1 with f | pr1
      · exact ⟨δv ++ δ1, by rw [h1, hv, List.append_assoc],
          by rw [countReset_append, hvcr, h1cr],
          by rw [countW_append, hvcw, h1cw]⟩
      · rcases pr1 with ⟨av1, cur1⟩
        dsimp only
        obtain ⟨δ2, h2, h2cr, h2cw, -, -⟩ :=
          gcf_delta WireProtocol.Jtag { s2 with swd_speed_khz := cur1 } d2
        rcases hg2 : STLink.get_communication_frequencies WireProtocol.Jtag
            { s2 with swd_speed_khz := cur1 } d2 with ⟨rg2, s3, d3⟩
        rw [hg2] at h2
        dsimp only at h2
        rcases rg2 with f | pr2
        · exact ⟨δv ++ δ1 ++ δ2, by rw [h2, h1, hv]; simp [List.append_assoc],
            by rw [countReset_append, countReset_append, hvcr, h1cr, h2cr],
            by rw [countW_append, countW_append, hvcw, h1cw, h2cw]⟩
        · rcases pr2 with ⟨av2, cur2⟩
          dsimp only
          have h4 := gtv_delta { s3 with jtag_speed_khz := cur2 } d3
          rcases hg3 : STLink.get_target_voltage { s3 with jtag_speed_khz := cur2 } d3
              with ⟨rg3, s4, d4⟩
          rw [hg3] at h4
          dsimp only at h4
          rcases rg3 with f | vv2 <;>
            exact ⟨δv ++ δ1 ++ δ2 ++ [DevEvent.write [commands.GET_TARGET_VOLTAGE]],
              by rw [h4, h2, h1, hv]; simp [List.append_assoc],
              by rw [countReset_append, countReset_append, countReset_append,
                hvcr, h1cr, h2cr, cr_single_write],
              by rw [countW_append, countW_append, countW_append, hvcw, h1cw, h2cw,
                cw_single_ne _ _ (by decide)]⟩
    · rw [if_neg h3]
      dsimp only
      have h4 := gtv_delta s1 d1
      rcases hg3 : STLink.get_target_voltage s1 d1 with ⟨rg3, s4, d4⟩
      rw [hg3] at h4
      dsimp only at h4
      rcases rg3 with f | vv2 <;>
        exact ⟨δv ++ [DevEvent.write [commands.GET_TARGET_VOLTAGE]],
          by rw [h4, hv]; simp [List.append_assoc],
          by rw [countReset_append, hvcr, cr_single_write],
          by rw [countW_append, hvcw, cw_single_ne _ _ (by decide)]⟩

/-- C8: during initialization, a first idle-entry attempt failing with the
transport-level USB error triggers exactly one transport reset and exactly one
retried idle entry (two idle-entry mode queries in total; if the reset itself
fails the error is returned with no retry, still after exactly one reset
attempt); any other first idle-entry failure is returned immediately,
unchanged, with no reset; a successful first idle entry leads to no reset at
all; and none of the other driver operations (register reads and writes, speed
setting, target reset, voltage query, version query, attach, detach) ever
resets the transport or issues the same command twice, i.e. none of them
retries on failure. -/
theorem init_retry_policy :
    (∀ (s : STLink) (d : Dev),
      (STLink.enter_idle s d).1 = Except.error (Failure.err DebugProbeError.USB) →
      (((STLink.enter_idle s d).2.2.resetOracle (STLink.enter_idle s d).2.2.resetCount = true →
        ∃ δ, (STLink.init s d).2.2.trace = d.trace ++ δ ∧
          countReset δ = 1 ∧ countW [commands.GET_CURRENT_MODE] δ = 2) ∧
       ((STLink.enter_idle s d).2.2.resetOracle (STLink.enter_idle s d).2.2.resetCount = false →
        ∃ δ, (STLink.init s d).2.2.trace = d.trace ++ δ ∧
          countReset δ = 1 ∧ countW [commands.GET_CURRENT_MODE] δ = 1))) ∧
    (∀ (s : STLink) (d : Dev) (f : Failure),
      (STLink.enter_idle s d).1 = Except.error f →
      f ≠ Failure.err DebugProbeError.USB →
      STLink.init s d = STLink.enter_idle s d) ∧
    (∀ (s : STLink) (d : Dev),
      (STLink.enter_idle s d).1 = Except.ok () →
      ∃ δ, (STLink.init s d).2.2.trace = d.trace ++ δ ∧
        countReset δ = 0 ∧ countW [commands.GET_CURRENT_MODE] δ = 1) ∧
    (∀ (port : PortType) (addr : Nat) (s : STLink) (d : Dev),
      noRetryFrom d (STLink.read_register port addr s d).2.2) ∧
    (∀ (port : PortType) (addr value : Nat) (s : STLink) (d : Dev),
      noRetryFrom d (STLink.write_register port addr value s d).2.2) ∧
    (∀ (k : Nat) (s : STLink) (d : Dev), noRetryFrom d (STLink.set_speed k s d).2.2) ∧
    (∀ (s : STLink) (d : Dev), noRetryFrom d (STLink.target_reset s d).2.2) ∧
    (∀ (s : STLink) (d : Dev), noRetryFrom d (STLink.get_target_voltage s d).2.2) ∧
    (∀ (s : STLink) (d : Dev), noRetryFrom d (STLink.get_version s d).2.2) ∧
    (∀ (s : STLink) (d : Dev), noRetryFrom d (STLink.attach s d).2.2) ∧
    (∀ (s : STLink) (d : Dev), noRetryFrom d (STLink.detach s d).2.2) := by
  refine ⟨?_, ?_, ?_, rr_noretry, wr_noretry, ?_, ?_, ?_, ?_, attach_noretry, ?_⟩
  · intro s d husb
    obtain ⟨δ1, hδ1, h1cr, h1cw, -, -⟩ := enter_idle_delta s d
    rcases hei : STLink.enter_idle s d with ⟨re, s1, d1⟩
    rw [hei] at hδ1 husb
    dsimp only at hδ1 husb
    subst husb
    constructor
    · intro hro
      unfold STLink.init
      rw [hei]
      dsimp only
      rw [devReset_run, if_pos hro]
      dsimp only
      obtain ⟨δ2, hδ2, h2cr, h2cw, -, -⟩ := enter_idle_delta s1 (dResetStep d1)
      rcases hei2 : STLink.enter_idle s1 (dResetStep d1) with ⟨re2, s2, d3⟩
      rw [hei2] at hδ2
      dsimp only at hδ2
      rcases re2 with f2 | u2
      · dsimp only
        refine ⟨δ1 ++ [DevEvent.reset] ++ δ2, ?_, ?_, ?_⟩
        · rw [hδ2]
          simp [dResetStep, hδ1]
        · rw [countReset_append, countReset_append, h1cr, h2cr]
          decide
        · rw [countW_append, countW_append, h1cw, h2cw]
          decide
      · dsimp only
        obtain ⟨δ3, hδ3, h3cr, h3cw⟩ := init_rest_delta s2 d3
        refine ⟨δ1 ++ [DevEvent.reset] ++ δ2 ++ δ3, ?_, ?_, ?_⟩
        · rw [hδ3, hδ2]
          simp [dResetStep, hδ1]
        · rw [countReset_append, countReset_append, countReset_append, h1cr, h2cr, h3cr]
          decide
        · rw [countW_append, countW_append, countW_append, h1cw, h2cw, h3cw]
          decide
    · intro hro
      unfold STLink.init
      rw [hei]
      dsimp only
      rw [devReset_run, if_neg (by rw [show d1.resetOracle d1.resetCount = false from hro]; simp)]
      dsimp only
      refine ⟨δ1 ++ [DevEvent.reset], ?_, ?_, ?_⟩
      · simp [dResetStep, hδ1]
      · rw [countReset_append, h1cr]
        decide
      · rw [countW_append, h1cw]
        decide
  · intro s d f herr hne
    unfold STLink.init
    rcases hei : STLink.enter_idle s d with ⟨re, s1, d1⟩
    rw [hei] at herr
    dsimp only at herr
    subst herr
    rcases f with e | msg
    · rcases e with _ | _ | _ | k | pe
      · exact absurd rfl hne
      · rfl
      · rfl
      · rfl
      · rfl
    · rfl
  · intro s d hok
    obtain ⟨δ1, hδ1, h1cr, h1cw, -, -⟩ := enter_idle_delta s d
    rcases hei : STLink.enter_idle s d with ⟨re, s1, d1⟩
    rw [hei] at hδ1 hok
    dsimp only at hδ1 hok
    rcases re with f | u
    · exact absurd hok (by simp)
    · unfold STLink.init
      rw [hei]
      dsimp only
      obtain ⟨δ3, hδ3, h3cr, h3cw⟩ := init_rest_delta s1 d1
      refine ⟨δ1 ++ δ3, ?_, ?_, ?_⟩
      · rw [hδ3, hδ1, List.append_assoc]
      · rw [countReset_append, h1cr, h3cr]
      · rw [countW_append, h1cw, h3cw]
  · intro k s d
    obtain ⟨δ, h, hcr, hnd, -⟩ := set_speed_delta k s d
    exact ⟨δ, h, reset_notin_of_countReset_zero _ hcr, hnd⟩
  · intro s d
    exact ⟨[DevEvent.write [commands.JTAG_COMMAND, commands.JTAG_DRIVE_NRST,
        commands.JTAG_DRIVE_NRST_PULSE]], target_reset_delta s d, by simp, List.nodup_singleton _⟩
  · intro s d
    exact ⟨[DevEvent.write [commands.GET_TARGET_VOLTAGE]], gtv_delta s d, by simp,
      List.nodup_singleton _⟩
  · intro s d
    obtain ⟨δ, h, hcr, hcw, hnd, -⟩ := gv_delta s d
    exact ⟨δ, h, reset_notin_of_countReset_zero _ hcr, hnd⟩
  · intro s d
    obtain ⟨δ, h, hcr, hcw, hnd, -⟩ := enter_idle_delta s d
    exact ⟨δ, h, reset_notin_of_countReset_zero _ hcr, hnd⟩

theorem init_retry_policy_witness :
    ∃ δ, (STLink.init defaultSTLink (mkDev (fun k =>
        if k = 0 then none
        else if k = 1 then some [2]
        else if k = 2 then some [0x26, 0, 0, 0, 0, 0]
        else some (le4 1000 ++ le4 500)))).2.2.trace =
      (mkDev (fun k =>
        if k = 0 then none
        else if k = 1 then some [2]
        else if k = 2 then some [0x26, 0, 0, 0, 0, 0]
        else some (le4 1000 ++ le4 500))).trace ++ δ ∧
      countReset δ = 1 ∧ countW [commands.GET_CURRENT_MODE] δ = 2 :=
  (init_retry_policy.1 defaultSTLink (mkDev (fun k =>
        if k = 0 then none
        else if k = 1 then some [2]
        else if k = 2 then some [0x26, 0, 0, 0, 0, 0]
        else some (le4 1000 ++ le4 500))) rfl).1 rfl
